import Mathlib

/-!
Verification of the triangle-solver repository (optimisticside/triangle-solver).

This file gives a shallow embedding, over the real numbers, of the solving
engine in `src/src/triangle.py` (the final evolution stage of the code; the
intermediate stage `src/src/__init__.py` is embedded where a claim cites it).
Python floats are modelled as real numbers; `None` as `Option.none`; Python
exceptions (`TriangleException`, `ValueError` from `math.asin`/`math.acos`/
`math.sqrt` on out-of-domain input, `ZeroDivisionError`, `TypeError` on
arithmetic with `None`) as an `Except` error type.  Loops `for i in range(3)`
are unrolled as three sequential steps.
-/

namespace TriSolve

open Real

/-- Fixed-length-3 ordered sequence, modelling the Python length-3 lists of
sides and angles (and altitudes/medians). -/
structure Triple (α : Type) where
  x0 : α
  x1 : α
  x2 : α
deriving Repr, DecidableEq

namespace Triple

/-- Indexing `arr[i]`. -/
def get (t : Triple α) (i : Fin 3) : α :=
  match i with
  | ⟨0, _⟩ => t.x0
  | ⟨1, _⟩ => t.x1
  | ⟨2, _⟩ => t.x2

/-- Assignment `arr[i] = v`. -/
def set (t : Triple α) (i : Fin 3) (v : α) : Triple α :=
  match i with
  | ⟨0, _⟩ => ⟨v, t.x1, t.x2⟩
  | ⟨1, _⟩ => ⟨t.x0, v, t.x2⟩
  | ⟨2, _⟩ => ⟨t.x0, t.x1, v⟩

/-- Python helper `rest(arr, n)`: the two elements other than index `n`,
in index order. -/
def rest (t : Triple α) (i : Fin 3) : α × α :=
  match i with
  | ⟨0, _⟩ => (t.x1, t.x2)
  | ⟨1, _⟩ => (t.x0, t.x2)
  | ⟨2, _⟩ => (t.x0, t.x1)

end Triple

/-- Number of non-`None` entries, as in
`len([x for x in arr if x is not None])`. -/
def countKnown (t : Triple (Option ℝ)) : Nat :=
  (if t.x0.isSome then 1 else 0) + (if t.x1.isSome then 1 else 0) +
    (if t.x2.isSome then 1 else 0)

/-- Error codes of the `TriangleError` enum. -/
inductive TriErr where
  | notEnoughVariables
  | tooManyVariables
  | noSides
  | invalidSide
  | invalidAngle
  | invalidTriangle
deriving Repr, DecidableEq

/-- Exceptions the Python code can raise: a `TriangleException` carrying a
`TriangleError`, a `ValueError` from a `math` function applied outside its
domain, a `ZeroDivisionError`, or a `TypeError` from arithmetic on `None`. -/
inductive PyErr where
  | tri (e : TriErr)
  | mathDomain
  | zeroDiv
  | typeErr
deriving Repr, DecidableEq

/-- Reading a Python value that the code uses arithmetically: `None` gives a
`TypeError`. -/
def getF (o : Option ℝ) : Except PyErr ℝ :=
  match o with
  | some x => .ok x
  | none => .error .typeErr

open scoped Classical in
/-- Python float division: raises `ZeroDivisionError` on a zero denominator. -/
noncomputable def divE (num den : ℝ) : Except PyErr ℝ :=
  if den = 0 then .error .zeroDiv else .ok (num / den)

open scoped Classical in
/-- Model of `math.asin`: `ValueError` outside `[-1, 1]`. -/
noncomputable def asinE (x : ℝ) : Except PyErr ℝ :=
  if -1 ≤ x ∧ x ≤ 1 then .ok (Real.arcsin x) else .error .mathDomain

open scoped Classical in
/-- Model of `math.acos`: `ValueError` outside `[-1, 1]`. -/
noncomputable def acosE (x : ℝ) : Except PyErr ℝ :=
  if -1 ≤ x ∧ x ≤ 1 then .ok (Real.arccos x) else .error .mathDomain

open scoped Classical in
/-- Model of `math.sqrt`: `ValueError` on negative input. -/
noncomputable def sqrtE (x : ℝ) : Except PyErr ℝ :=
  if 0 ≤ x then .ok (Real.sqrt x) else .error .mathDomain

/-- Model of `math.isclose(a, b, abs_tol=0.01)`.  Python's `math.isclose`
keeps its default relative tolerance `1e-09` alongside the given absolute
tolerance: `abs(a-b) <= max(rel_tol * max(abs(a), abs(b)), abs_tol)`. -/
def isclose (a b : ℝ) : Prop :=
  |a - b| ≤ max ((1 / 1000000000) * max |a| |b|) (1 / 100)

/-- State of one `TriangleSolver` instance (its mutable attributes).  The
`alternative` attribute may itself hold a solver, hence the recursion. -/
inductive TS where
  | mk (sides angles altitudes medians : Triple (Option ℝ))
       (isAlternative : Bool) (perimeter area : Option ℝ)
       (alternative : Option TS)

namespace TS

def sides : TS → Triple (Option ℝ) | .mk s _ _ _ _ _ _ _ => s
def angles : TS → Triple (Option ℝ) | .mk _ a _ _ _ _ _ _ => a
def altitudes : TS → Triple (Option ℝ) | .mk _ _ h _ _ _ _ _ => h
def medians : TS → Triple (Option ℝ) | .mk _ _ _ m _ _ _ _ => m
def isAlternative : TS → Bool | .mk _ _ _ _ b _ _ _ => b
def perimeter : TS → Option ℝ | .mk _ _ _ _ _ p _ _ => p
def area : TS → Option ℝ | .mk _ _ _ _ _ _ a _ => a
def alternative : TS → Option TS | .mk _ _ _ _ _ _ _ o => o

def setSides : TS → Triple (Option ℝ) → TS
  | .mk _ a h m b p ar o, s => .mk s a h m b p ar o
def setAngles : TS → Triple (Option ℝ) → TS
  | .mk s _ h m b p ar o, a => .mk s a h m b p ar o
def setAlternative : TS → Option TS → TS
  | .mk s a h m b p ar _, o => .mk s a h m b p ar o

/-- State built by `TriangleSolver.__init__(sides, angles)`: altitudes and
medians are `[None] * 3`, the alternative flag is false. -/
def init (s a : Triple (Option ℝ)) : TS :=
  .mk s a ⟨none, none, none⟩ ⟨none, none, none⟩ false none none none

end TS

/-- Sequential execution of a loop body `for i in range(3)` threading solver
state, where the body may raise. -/
def loop3 (f : Fin 3 → TS → Except PyErr TS) (st : TS) : Except PyErr TS := do
  let st1 ← f 0 st
  let st2 ← f 1 st1
  f 2 st2

/-- Sequential execution of a checking loop `for i in range(3)` that does not
mutate state. -/
def check3 (f : Fin 3 → Except PyErr Unit) : Except PyErr Unit := do
  f 0
  f 1
  f 2

/-- Body of `TriangleSolver.validate_side(i)`:
`(a is None or b is None) or (sides[i] < a + b and sides[i] > abs(a - b))`,
where `c = self.sides[i]` and `(a, b) = rest(self.sides, i)`.  The Python
`or` short-circuits, so `a + b` is never evaluated on `None`. -/
def validate_side (c : ℝ) : Option ℝ × Option ℝ → Prop
  | (some a, some b) => c < a + b ∧ c > |a - b|
  | _ => True

/-- Body of `TriangleSolver.validate_angle(i)`: `self.angles[i] < math.pi`. -/
def validate_angle (θ : ℝ) : Prop := θ < π

open scoped Classical in
/-- One iteration `i` of the loop in `TriangleSolver.validate`.  The
`continue` statements of the source become early `pure ()` exits. -/
noncomputable def validateStep (complete : Bool) (st : TS) (i : Fin 3) :
    Except PyErr Unit := do
  (match st.sides.get i with
   | some c =>
       if validate_side c (st.sides.rest i) then pure ()
       else .error (.tri .invalidSide)
   | none => pure ())
  match st.angles.get i with
  | none => pure ()
  | some θ => do
      if validate_angle θ then pure () else .error (.tri .invalidAngle)
      if complete then do
        let (oa, ob) := st.sides.rest i
        let a ← getF oa
        let b ← getF ob
        let c ← getF (st.sides.get i)
        let q ← divE (a ^ 2 + b ^ 2 - c ^ 2) (2 * a * b)
        let angle ← acosE q
        if isclose angle θ then pure () else .error (.tri .invalidTriangle)
      else pure ()

open scoped Classical in
/-- `TriangleSolver.validate(complete)`: the per-index loop, then (only when
`complete` is false) the variable-count checks. -/
noncomputable def validate (complete : Bool) (st : TS) : Except PyErr Unit := do
  check3 (validateStep complete st)
  if !complete then do
    let side_count := countKnown st.sides
    let angle_count := countKnown st.angles
    if side_count + angle_count > 3 then .error (.tri .tooManyVariables)
    else if side_count + angle_count < 3 then .error (.tri .notEnoughVariables)
    else if side_count = 0 then .error (.tri .noSides)
    else pure ()
  else pure ()

open scoped Classical in
/-- `TriangleSolver.is_ambigous(a, b)`, with Python's left-to-right
short-circuit evaluation of the `and` chain (each operand reads attributes
that are `None`-checked by `getF`). -/
noncomputable def is_ambigous (st : TS) (a b : Fin 3) : Except PyErr Prop := do
  let θb ← getF (st.angles.get b)
  if θb < π / 2 then do
    let sa ← getF (st.sides.get a)
    let sb ← getF (st.sides.get b)
    if sa < sb then do
      let θa ← getF (st.angles.get a)
      pure (sa > sb * Real.sin θa)
    else pure False
  else pure False

/-- `TriangleSolver.calculate_last_angle`: each unknown angle becomes
`math.pi - (a + b)` for `(a, b) = rest(self.angles, i)`. -/
noncomputable def calculate_last_angle (st : TS) : Except PyErr TS :=
  loop3 (fun i st' =>
    match st'.angles.get i with
    | some _ => pure st'
    | none => do
        let (oa, ob) := st'.angles.rest i
        let a ← getF oa
        let b ← getF ob
        pure (st'.setAngles (st'.angles.set i (some (π - (a + b)))))) st

/-- `TriangleSolver.calculate_two_sides`: fill the last angle, then for each
known side `i` and unknown side `j`, apply the law of sines
`sides[j] = sin(angles[j]) * sides[i] / sin(angles[i])`. -/
noncomputable def calculate_two_sides (st : TS) : Except PyErr TS := do
  let st ← calculate_last_angle st
  loop3 (fun i st' =>
    match st'.sides.get i with
    | none => pure st'
    | some _ =>
        loop3 (fun j st'' =>
          match st''.sides.get j with
          | some _ => pure st''
          | none => do
              let θj ← getF (st''.angles.get j)
              let si ← getF (st''.sides.get i)
              let θi ← getF (st''.angles.get i)
              let v ← divE (Real.sin θj * si) (Real.sin θi)
              pure (st''.setSides (st''.sides.set j (some v)))) st') st

/-- `TriangleSolver.calculate_three_angles`: for each index `i`,
`angles[i] = acos((a**2 + b**2 - sides[i]**2) / (2*a*b))` with
`(a, b) = rest(self.sides, i)`. -/
noncomputable def calculate_three_angles (st : TS) : Except PyErr TS :=
  loop3 (fun i st' => do
    let (oa, ob) := st'.sides.rest i
    let a ← getF oa
    let b ← getF ob
    let c ← getF (st'.sides.get i)
    let q ← divE (a ^ 2 + b ^ 2 - c ^ 2) (2 * a * b)
    let θ ← acosE q
    pure (st'.setAngles (st'.angles.set i (some θ)))) st

/-- `TriangleSolver.calculate_other`: perimeter, the square-root-free Heron
product for `area`, and per index the altitude `sin(angles[a]) * sides[b]`
and the median `sqrt((sides[a]**2 + sides[b]**2 - sides[i]**2 / 2) / 2)`,
with `(a, b) = rest(range(3), i)`. -/
noncomputable def calculate_other (st : TS) : Except PyErr TS := do
  let s0 ← getF (st.sides.get 0)
  let s1 ← getF (st.sides.get 1)
  let s2 ← getF (st.sides.get 2)
  let perimeter := s0 + s1 + s2
  let s := perimeter / 2
  let area := s * (s - s0) * (s - s1) * (s - s2)
  let oneStep : Fin 3 → Triple (Option ℝ) × Triple (Option ℝ) →
      Except PyErr (Triple (Option ℝ) × Triple (Option ℝ)) := fun i hm => do
    let (ia, ib) := (Triple.mk (0 : Fin 3) 1 2).rest i
    let θa ← getF (st.angles.get ia)
    let sb ← getF (st.sides.get ib)
    let sa ← getF (st.sides.get ia)
    let si ← getF (st.sides.get i)
    let med ← sqrtE ((sa ^ 2 + sb ^ 2 - si ^ 2 / 2) / 2)
    pure (hm.1.set i (some (Real.sin θa * sb)), hm.2.set i (some med))
  let hm0 ← oneStep 0 (st.altitudes, st.medians)
  let hm1 ← oneStep 1 hm0
  let hm2 ← oneStep 2 hm1
  match st with
  | .mk sd an _ _ b _ _ o => pure (.mk sd an hm2.1 hm2.2 b (some perimeter) (some area) o)

/-- Alternate-solution block inside `calculate_two_angles` (the body of
`if self.is_ambigous(i, j) and not self.is_alternative:`).  In
`triangle.py` the copy's `sides`/`angles` are fresh lists
(`copy.angles = list(self.angles)`), so the copy is by value; the copy
starts from `TriangleSolver()` (fresh `[None]*3` altitudes and medians,
no alternative) with `is_alternative = True`, gets `angles[j]` replaced by
`math.pi - self.angles[j]`, is completed by `calculate_two_sides`, fully
validated, given derived quantities, and attached as `self.alternative`. -/
noncomputable def attachAlt (st : TS) (j : Fin 3) : Except PyErr TS := do
  let θj ← getF (st.angles.get j)
  let copy : TS := .mk st.sides (st.angles.set j (some (π - θj)))
    ⟨none, none, none⟩ ⟨none, none, none⟩ true none none none
  let copy ← calculate_two_sides copy
  validate true copy
  let copy ← calculate_other copy
  pure (st.setAlternative (some copy))

open scoped Classical in
/-- Inner loop body (over `j`) of the known-side branch of
`TriangleSolver.calculate_two_angles`: skip when `sides[j]` is `None` or
`i == j`; otherwise set `angles[j] = asin(sin(angles[i]) * sides[j] /
sides[i])`, possibly attach an alternate, and run `calculate_two_sides`. -/
noncomputable def twoAnglesInner (i j : Fin 3) (st : TS) : Except PyErr TS :=
  match st.sides.get j with
  | none => pure st
  | some _ =>
      if i = j then pure st
      else do
        let θi ← getF (st.angles.get i)
        let sj ← getF (st.sides.get j)
        let si ← getF (st.sides.get i)
        let q ← divE (Real.sin θi * sj) si
        let θj ← asinE q
        let st := st.setAngles (st.angles.set j (some θj))
        let amb ← is_ambigous st i j
        let st ← if amb ∧ st.isAlternative = false then attachAlt st j else pure st
        calculate_two_sides st

/-- `TriangleSolver.calculate_two_angles`: for each `i` with a known angle,
either the law-of-cosines branch when `sides[i]` is unknown (followed by
`calculate_three_angles`), or the inner `j` loop above. -/
noncomputable def calculate_two_angles (st : TS) : Except PyErr TS :=
  loop3 (fun i st' =>
    match st'.angles.get i with
    | none => pure st'
    | some θi =>
        match st'.sides.get i with
        | none => do
            let (oa, ob) := st'.sides.rest i
            let a ← getF oa
            let b ← getF ob
            let v ← sqrtE (a ^ 2 + b ^ 2 - 2 * a * b * Real.cos θi)
            calculate_three_angles (st'.setSides (st'.sides.set i (some v)))
        | some _ => loop3 (twoAnglesInner i) st') st

open scoped Classical in
/-- `TriangleSolver.solve`: validate, dispatch on the number of known sides,
validate completely, compute derived quantities.  Returns the final solver
state. -/
noncomputable def solveTS (st : TS) : Except PyErr TS := do
  validate false st
  let side_count := countKnown st.sides
  let st ←
    if side_count = 3 then calculate_three_angles st
    else if side_count = 2 then calculate_two_angles st
    else if side_count = 1 then calculate_two_sides st
    else pure st
  validate true st
  calculate_other st

/-- Python helper `ensure_size(arr, None, 3)` for length-≤-3 input lists. -/
def ensure_size (l : List (Option ℝ)) : Triple (Option ℝ) :=
  ⟨l.getD 0 none, l.getD 1 none, l.getD 2 none⟩

open scoped Classical in
/-- Conversion applied by the module-level `solve` to each input angle:
`math.radians(x) if x else None`.  A Python float is falsy exactly when it
is zero, so an angle equal to `0` is coerced to `None`; otherwise it is
converted from degrees to radians. -/
noncomputable def coerceAngle (o : Option ℝ) : Option ℝ :=
  match o with
  | none => none
  | some x => if x = 0 then none else some (x * π / 180)

/-- Module-level `solve(sides, angles)` of `triangle.py`: coerce the angles
from degrees, pad both lists to length 3, and run the solver. -/
noncomputable def solvePy (sides angles : List (Option ℝ)) : Except PyErr TS :=
  solveTS (TS.init (ensure_size sides) (ensure_size (angles.map coerceAngle)))

/-- A solver state is alternate-clean when any attached alternate has no
alternate of its own (recursion depth capped at 1). -/
def altOk (st : TS) : Prop :=
  ∀ a, st.alternative = some a → a.alternative = none

/-- Embedding of the start of the alternate-attachment block in the
intermediate stage `src/src/__init__.py` (`calculate_two_angles`,
lines 176-178).  There the copy is made with
`copy = dataclasses.replace(self)`, which constructs a new
`TriangleSolver` whose `sides` and `angles` fields are the *same list
objects* as the primary's (`replace` passes the field values through, a
shallow copy), so the item assignment
`copy.angles[j] = math.pi - self.angles[j]` writes through to the
primary's list as well.  The result is the pair (primary's angles after
the write, copy's angles after the write): both are the single shared,
updated list. -/
noncomputable def initReplaceAttach (angles : Triple (Option ℝ)) (j : Fin 3) :
    Except PyErr (Triple (Option ℝ) × Triple (Option ℝ)) := do
  let θj ← getF (angles.get j)
  let shared := angles.set j (some (π - θj))
  pure (shared, shared)

/-! Concrete solver states used in the claim theorems below. -/

/-- Input state for `solve([3, 4, 5], [])`: the SSS case of the spec's
symmetry test. -/
noncomputable def st345 : TS := TS.init ⟨some 3, some 4, some 5⟩ ⟨none, none, none⟩

/-- State of the 3-4-5 run after `calculate_three_angles`. -/
noncomputable def st345angles : TS := TS.mk ⟨some 3, some 4, some 5⟩
  ⟨some (arccos (4/5)), some (arccos (3/5)), some (π/2)⟩
  ⟨none, none, none⟩ ⟨none, none, none⟩ false none none none

/-- Final state of the 3-4-5 run: angles `arccos 0.8 ≈ 0.6435`,
`arccos 0.6 ≈ 0.9273`, `π/2`; perimeter `12`; area `36` (the Heron product
without the square root). -/
noncomputable def res345 : TS := TS.mk ⟨some 3, some 4, some 5⟩
  ⟨some (arccos (4/5)), some (arccos (3/5)), some (π/2)⟩
  ⟨some (sin (arccos (3/5)) * 5), some (sin (arccos (4/5)) * 5), some (sin (arccos (4/5)) * 4)⟩
  ⟨some (√(73/4)), some (√13), some (√(25/4))⟩
  false (some 12) (some 36) none

/-- Input state for sides `[1, 10]` with given opposite angle `π/2` at
index 0 (an SSA input whose law-of-sines ratio is `sin(π/2)·10/1 = 10`). -/
noncomputable def stC2 : TS :=
  TS.init ⟨some 1, some 10, none⟩ ⟨some (π/2), none, none⟩

/-- Fully-known solver state (all three sides and angles given), as built by
`TriangleSolver.__init__`. -/
noncomputable def mkFull (s0 s1 s2 θ0 θ1 θ2 : ℝ) : TS :=
  TS.init ⟨some s0, some s1, some s2⟩ ⟨some θ0, some θ1, some θ2⟩

/-! States of the SSA run on sides `[sin 2.4, cos 1.2]` with given obtuse
angle `2.4` at index 0 (the isoceles triangle with angles
`(2.4, B, B)`, `B = π/2 - 1.2`, and sides `(sin 2.4, sin B, sin B)`).
This is a genuine triangle, yet the solver rejects it: the `asin`
recomputation inside `calculate_two_angles` overwrites the given obtuse
angle with its acute supplement `2B = π - 2.4`, and the final complete
validation then fails.  Rationals are used: `2.4 = 12/5`, `1.2 = 6/5`. -/

/-- Base angle `B = π/2 - 6/5 ≈ 0.3708` of the isoceles counterexample
triangle. -/
noncomputable def bC4 : ℝ := π/2 - 6/5

/-- Input state: sides `[sin(12/5), cos(6/5)]`, angle `12/5` at index 0. -/
noncomputable def stC4 : TS :=
  TS.init ⟨some (sin (12/5)), some (cos (6/5)), none⟩ ⟨some (12/5), none, none⟩

/-- The input state with `cos(6/5)` rewritten as `sin bC4`. -/
noncomputable def stC4n : TS :=
  TS.init ⟨some (sin (12/5)), some (sin bC4), none⟩ ⟨some (12/5), none, none⟩

/-- State after the `i = 0` pass of `calculate_two_angles`: angle 1 set to
`bC4` by the law of sines, angle 2 and side 2 filled by
`calculate_two_sides`. -/
noncomputable def stC4b : TS :=
  TS.mk ⟨some (sin (12/5)), some (sin bC4), some (sin bC4)⟩
    ⟨some (12/5), some bC4, some bC4⟩
    ⟨none, none, none⟩ ⟨none, none, none⟩ false none none none

/-- State after the `i = 1, j = 0` law-of-sines assignment: the given obtuse
angle `12/5` at index 0 has been overwritten by its acute supplement
`2*bC4 = π - 12/5`. -/
noncomputable def stC4c : TS :=
  TS.mk ⟨some (sin (12/5)), some (sin bC4), some (sin bC4)⟩
    ⟨some (2*bC4), some bC4, some bC4⟩
    ⟨none, none, none⟩ ⟨none, none, none⟩ false none none none

/-- The alternate candidate attached during the run: a fully solved copy
whose angle 0 was flipped back to `π - 2*bC4 = 12/5` — the original
triangle. -/
noncomputable def altC4 : TS :=
  TS.mk ⟨some (sin (12/5)), some (sin bC4), some (sin bC4)⟩
    ⟨some (12/5), some bC4, some bC4⟩
    ⟨some (sin bC4 * sin bC4), some (sin (12/5) * sin bC4),
     some (sin (12/5) * sin bC4)⟩
    ⟨some (√((sin bC4^2 + sin bC4^2 - sin (12/5)^2/2)/2)),
     some (√((sin (12/5)^2 + sin bC4^2 - sin bC4^2/2)/2)),
     some (√((sin (12/5)^2 + sin bC4^2 - sin bC4^2/2)/2))⟩
    true (some (sin (12/5) + sin bC4 + sin bC4))
    (some ((sin (12/5) + sin bC4 + sin bC4)/2
      * ((sin (12/5) + sin bC4 + sin bC4)/2 - sin (12/5))
      * ((sin (12/5) + sin bC4 + sin bC4)/2 - sin bC4)
      * ((sin (12/5) + sin bC4 + sin bC4)/2 - sin bC4)))
    none

/-- The primary state at the end of `calculate_two_angles`: corrupted acute
angle at index 0 and the alternate attached. -/
noncomputable def stC4d : TS :=
  TS.mk ⟨some (sin (12/5)), some (sin bC4), some (sin bC4)⟩
    ⟨some (2*bC4), some bC4, some bC4⟩
    ⟨none, none, none⟩ ⟨none, none, none⟩ false none none (some altC4)

/-! States of the SSA run on sides `[sin 0.7, cos 0.704]` with given angle
`0.7` at index 0: a genuine triangle with angles
`(0.7, aC5, cC5)` where `aC5 = π/2 - 0.704` and `cC5 = π/2 + 0.004` is
barely obtuse.  The classic SSA ambiguity predicate holds at the original
pair `(i, j) = (0, 1)` and a legитimate alternate (flipped at index 1) is
attached — but the solver then re-derives angles at the computed side 2,
finds the predicate true at `(0, 2)` and `(1, 2)`, and overwrites the
alternate with a copy flipped at index 2; because `cC5` is within the
`0.01` tolerance of `π/2`, the final validation passes and the solve
returns with the wrong alternate.  Rationals: `0.7 = 7/10`,
`0.704 = 88/125`, `0.004 = 1/250`. -/

/-- Angle at index 1 of the C5 triangle: `aC5 = π/2 - 88/125 ≈ 0.8668`. -/
noncomputable def aC5 : ℝ := π/2 - 88/125

/-- True angle at index 2 of the C5 triangle: `cC5 = π/2 + 1/250`, slightly
obtuse. -/
noncomputable def cC5 : ℝ := π/2 + 1/250

/-- The acute supplement `π - cC5 = π/2 - 1/250` stored by the solver's
`asin` re-derivation. -/
noncomputable def wC5 : ℝ := π/2 - 1/250

/-- Input state: sides `[sin(7/10), cos(88/125)]`, angle `7/10` at index 0. -/
noncomputable def stC5 : TS :=
  TS.init ⟨some (sin (7/10)), some (cos (88/125)), none⟩
    ⟨some (7/10), none, none⟩

/-- The input state with `cos(88/125)` rewritten as `sin aC5`. -/
noncomputable def stC5n : TS :=
  TS.init ⟨some (sin (7/10)), some (sin aC5), none⟩ ⟨some (7/10), none, none⟩

/-- The legitimate alternate attached at the original SSA pair `(0, 1)`:
the second triangle `(7/10, π - aC5, aC5 - 7/10)`, fully solved. -/
noncomputable def altC5a : TS :=
  TS.mk ⟨some (sin (7/10)), some (sin aC5), some (sin (aC5 - 7/10))⟩
    ⟨some (7/10), some (π - aC5), some (aC5 - 7/10)⟩
    ⟨some (sin (π - aC5) * sin (aC5 - 7/10)),
     some (sin (7/10) * sin (aC5 - 7/10)), some (sin (7/10) * sin aC5)⟩
    ⟨some (√((sin aC5^2 + sin (aC5 - 7/10)^2 - sin (7/10)^2/2)/2)),
     some (√((sin (7/10)^2 + sin (aC5 - 7/10)^2 - sin aC5^2/2)/2)),
     some (√((sin (7/10)^2 + sin aC5^2 - sin (aC5 - 7/10)^2/2)/2))⟩
    true (some (sin (7/10) + sin aC5 + sin (aC5 - 7/10)))
    (some ((sin (7/10) + sin aC5 + sin (aC5 - 7/10))/2
      * ((sin (7/10) + sin aC5 + sin (aC5 - 7/10))/2 - sin (7/10))
      * ((sin (7/10) + sin aC5 + sin (aC5 - 7/10))/2 - sin aC5)
      * ((sin (7/10) + sin aC5 + sin (aC5 - 7/10))/2 - sin (aC5 - 7/10))))
    none

/-- The spurious alternate attached at the re-derivation pairs `(0, 2)` and
`(1, 2)`: the original triangle itself with angle 2 flipped back to
`cC5`. -/
noncomputable def altC5b : TS :=
  TS.mk ⟨some (sin (7/10)), some (sin aC5), some (cos (1/250))⟩
    ⟨some (7/10), some aC5, some cC5⟩
    ⟨some (sin aC5 * cos (1/250)), some (sin (7/10) * cos (1/250)),
     some (sin (7/10) * sin aC5)⟩
    ⟨some (√((sin aC5^2 + cos (1/250)^2 - sin (7/10)^2/2)/2)),
     some (√((sin (7/10)^2 + cos (1/250)^2 - sin aC5^2/2)/2)),
     some (√((sin (7/10)^2 + sin aC5^2 - cos (1/250)^2/2)/2))⟩
    true (some (sin (7/10) + sin aC5 + cos (1/250)))
    (some ((sin (7/10) + sin aC5 + cos (1/250))/2
      * ((sin (7/10) + sin aC5 + cos (1/250))/2 - sin (7/10))
      * ((sin (7/10) + sin aC5 + cos (1/250))/2 - sin aC5)
      * ((sin (7/10) + sin aC5 + cos (1/250))/2 - cos (1/250))))
    none

/-- Primary state after the `(0, 1)` iteration: angle 1 and the completed
angle 2 / side 2, with the legitimate alternate attached. -/
noncomputable def stC5b : TS :=
  TS.mk ⟨some (sin (7/10)), some (sin aC5), some (cos (1/250))⟩
    ⟨some (7/10), some aC5, some cC5⟩
    ⟨none, none, none⟩ ⟨none, none, none⟩ false none none (some altC5a)

/-- Primary state after the `(0, 2)` iteration: the stored angle 2 has been
flipped to the acute `wC5` and the alternate overwritten. -/
noncomputable def stC5c : TS :=
  TS.mk ⟨some (sin (7/10)), some (sin aC5), some (cos (1/250))⟩
    ⟨some (7/10), some aC5, some wC5⟩
    ⟨none, none, none⟩ ⟨none, none, none⟩ false none none (some altC5b)

/-- The returned solution of the C5 run. -/
noncomputable def resC5 : TS :=
  TS.mk ⟨some (sin (7/10)), some (sin aC5), some (cos (1/250))⟩
    ⟨some (7/10), some aC5, some wC5⟩
    ⟨some (sin aC5 * cos (1/250)), some (sin (7/10) * cos (1/250)),
     some (sin (7/10) * sin aC5)⟩
    ⟨some (√((sin aC5^2 + cos (1/250)^2 - sin (7/10)^2/2)/2)),
     some (√((sin (7/10)^2 + cos (1/250)^2 - sin aC5^2/2)/2)),
     some (√((sin (7/10)^2 + sin aC5^2 - cos (1/250)^2/2)/2))⟩
    false (some (sin (7/10) + sin aC5 + cos (1/250)))
    (some ((sin (7/10) + sin aC5 + cos (1/250))/2
      * ((sin (7/10) + sin aC5 + cos (1/250))/2 - sin (7/10))
      * ((sin (7/10) + sin aC5 + cos (1/250))/2 - sin aC5)
      * ((sin (7/10) + sin aC5 + cos (1/250))/2 - cos (1/250))))
    (some altC5b)

/-! Evaluation lemmas for the embedding. -/

@[simp] theorem Triple.get_zero (t : Triple α) : t.get 0 = t.x0 := rfl
@[simp] theorem Triple.get_one (t : Triple α) : t.get 1 = t.x1 := rfl
@[simp] theorem Triple.get_two (t : Triple α) : t.get 2 = t.x2 := rfl
@[simp] theorem Triple.set_zero (t : Triple α) (v : α) : t.set 0 v = ⟨v, t.x1, t.x2⟩ := rfl
@[simp] theorem Triple.set_one (t : Triple α) (v : α) : t.set 1 v = ⟨t.x0, v, t.x2⟩ := rfl
@[simp] theorem Triple.set_two (t : Triple α) (v : α) : t.set 2 v = ⟨t.x0, t.x1, v⟩ := rfl
@[simp] theorem Triple.rest_zero (t : Triple α) : t.rest 0 = (t.x1, t.x2) := rfl
@[simp] theorem Triple.rest_one (t : Triple α) : t.rest 1 = (t.x0, t.x2) := rfl
@[simp] theorem Triple.rest_two (t : Triple α) : t.rest 2 = (t.x0, t.x1) := rfl

@[simp] theorem TS.sides_mk (s a h m b p ar o) : (TS.mk s a h m b p ar o).sides = s := rfl
@[simp] theorem TS.angles_mk (s a h m b p ar o) : (TS.mk s a h m b p ar o).angles = a := rfl
@[simp] theorem TS.altitudes_mk (s a h m b p ar o) : (TS.mk s a h m b p ar o).altitudes = h := rfl
@[simp] theorem TS.medians_mk (s a h m b p ar o) : (TS.mk s a h m b p ar o).medians = m := rfl
@[simp] theorem TS.isAlternative_mk (s a h m b p ar o) : (TS.mk s a h m b p ar o).isAlternative = b := rfl
@[simp] theorem TS.perimeter_mk (s a h m b p ar o) : (TS.mk s a h m b p ar o).perimeter = p := rfl
@[simp] theorem TS.area_mk (s a h m b p ar o) : (TS.mk s a h m b p ar o).area = ar := rfl
@[simp] theorem TS.alternative_mk (s a h m b p ar o) : (TS.mk s a h m b p ar o).alternative = o := rfl
@[simp] theorem TS.setSides_mk (s a h m b p ar o s') :
    (TS.mk s a h m b p ar o).setSides s' = TS.mk s' a h m b p ar o := rfl
@[simp] theorem TS.setAngles_mk (s a h m b p ar o a') :
    (TS.mk s a h m b p ar o).setAngles a' = TS.mk s a' h m b p ar o := rfl
@[simp] theorem TS.setAlternative_mk (s a h m b p ar o o') :
    (TS.mk s a h m b p ar o).setAlternative o' = TS.mk s a h m b p ar o' := rfl

@[simp] theorem ok_bind {ε α β : Type} (a : α) (f : α → Except ε β) :
    (Except.ok a : Except ε α) >>= f = f a := rfl

@[simp] theorem error_bind {ε α β : Type} (e : ε) (f : α → Except ε β) :
    (Except.error e : Except ε α) >>= f = Except.error e := rfl

@[simp] theorem pure_eq_ok {ε α : Type} (a : α) :
    (pure a : Except ε α) = Except.ok a := rfl

@[simp] theorem getF_some (x : ℝ) : getF (some x) = .ok x := rfl

@[simp] theorem getF_none : getF none = .error .typeErr := rfl

theorem divE_ok {num den : ℝ} (h : den ≠ 0) : divE num den = .ok (num / den) :=
  if_neg h

theorem asinE_ok {x : ℝ} (h1 : -1 ≤ x) (h2 : x ≤ 1) :
    asinE x = .ok (Real.arcsin x) := if_pos ⟨h1, h2⟩

theorem asinE_err {x : ℝ} (h : 1 < x) : asinE x = .error .mathDomain :=
  if_neg (by rintro ⟨-, h2⟩; linarith)

theorem acosE_ok {x : ℝ} (h1 : -1 ≤ x) (h2 : x ≤ 1) :
    acosE x = .ok (Real.arccos x) := if_pos ⟨h1, h2⟩

theorem sqrtE_ok {x : ℝ} (h : 0 ≤ x) : sqrtE x = .ok (Real.sqrt x) := if_pos h

theorem isclose_refl (a : ℝ) : isclose a a := by
  unfold isclose
  have : (0:ℝ) ≤ (1 / 1000000000) * max |a| |a| := by positivity
  simp only [sub_self, abs_zero]
  exact le_trans (by norm_num) (le_max_right _ _)

theorem isclose_of_abs_le {a b : ℝ} (h : |a - b| ≤ 1 / 100) : isclose a b :=
  le_trans h (le_max_right _ _)

theorem not_isclose_of_lt {a b : ℝ} (ha : |a| ≤ 5) (hb : |b| ≤ 5)
    (h : 1 / 100 < |a - b|) : ¬ isclose a b := by
  unfold isclose
  push_neg
  have hm : max |a| |b| ≤ 5 := by simp [ha, hb]
  have : (1 / 1000000000 : ℝ) * max |a| |b| ≤ 1 / 100 := by nlinarith [abs_nonneg a]
  calc max ((1 / 1000000000) * max |a| |b|) (1 / 100) ≤ 1 / 100 :=
        max_le this (le_refl _)
    _ < |a - b| := h

/-! Generic facts about a "sine triangle": three angles `A B C`, each in
`(0, π)`, summing to `π`, with side lengths `sin A`, `sin B`, `sin C`
(law of sines with unit diameter).  These are the states produced by the
solver on consistent inputs. -/

theorem sin_sq_sub_identity (A B C : ℝ) (hsum : A + B + C = π) :
    Real.sin B ^ 2 + Real.sin C ^ 2 - Real.sin A ^ 2 =
      2 * Real.sin B * Real.sin C * Real.cos A := by
  have hA : A = π - (B + C) := by linarith
  rw [hA, Real.sin_pi_sub, Real.cos_pi_sub, Real.sin_add, Real.cos_add]
  have pB := Real.sin_sq_add_cos_sq B
  have pC := Real.sin_sq_add_cos_sq C
  nlinarith [pB, pC]

theorem cos_arg_eq {A B C : ℝ} (hsum : A + B + C = π)
    (hB : Real.sin B ≠ 0) (hC : Real.sin C ≠ 0) :
    (Real.sin B ^ 2 + Real.sin C ^ 2 - Real.sin A ^ 2) /
      (2 * Real.sin B * Real.sin C) = Real.cos A := by
  rw [sin_sq_sub_identity A B C hsum]
  field_simp

theorem sin_lt_sin_add_sin {A B C : ℝ} (hB : 0 < B) (hC : 0 < C)
    (hBp : B < π) (hCp : C < π) (hsum : A + B + C = π) :
    Real.sin A < Real.sin B + Real.sin C := by
  have hA : A = π - (B + C) := by linarith
  have hsB : 0 < Real.sin B := Real.sin_pos_of_pos_of_lt_pi hB hBp
  have hsC : 0 < Real.sin C := Real.sin_pos_of_pos_of_lt_pi hC hCp
  have hcB : Real.cos B ≤ 1 := Real.cos_le_one B
  have hcC : Real.cos C < 1 := by
    have h0 : Real.cos C < Real.cos 0 := by
      apply Real.strictAntiOn_cos ⟨le_refl 0, Real.pi_pos.le⟩
        ⟨hC.le, hCp.le⟩ hC
    simpa using h0
  rw [hA, Real.sin_pi_sub, Real.sin_add]
  nlinarith

theorem arccos_lt_pi' {x : ℝ} (h : -1 < x) : Real.arccos x < π :=
  lt_of_le_of_ne (Real.arccos_le_pi x) fun he =>
    absurd (Real.arccos_eq_pi.mp he) (by linarith)

theorem validate_side_sineTriangle {A B C : ℝ} (hA : 0 < A) (hB : 0 < B)
    (hC : 0 < C) (hAp : A < π) (hBp : B < π) (hCp : C < π)
    (hsum : A + B + C = π) :
    validate_side (sin A) (some (sin B), some (sin C)) := by
  have tA : sin A < sin B + sin C := sin_lt_sin_add_sin hB hC hBp hCp hsum
  have tB : sin B < sin A + sin C :=
    sin_lt_sin_add_sin hA hC hAp hCp (by linarith)
  have tC : sin C < sin A + sin B :=
    sin_lt_sin_add_sin hA hB hAp hBp (by linarith)
  exact ⟨tA, abs_sub_lt_iff.mpr ⟨by linarith, by linarith⟩⟩

/-- Complete validation succeeds on any state whose sides are the sines of a
genuine angle triple `A, B, C` and whose stored angles are each within the
`isclose` tolerance of the corresponding law-of-cosines recomputation. -/
theorem validate_true_sineTriangle (A B C θ0 θ1 θ2 : ℝ)
    (hA : 0 < A) (hB : 0 < B) (hC : 0 < C) (hsum : A + B + C = π)
    (h0 : isclose A θ0) (h1 : isclose B θ1) (h2 : isclose C θ2)
    (ha0 : θ0 < π) (ha1 : θ1 < π) (ha2 : θ2 < π)
    (al me : Triple (Option ℝ)) (fl : Bool) (pe ar : Option ℝ)
    (ob : Option TS) :
    validate true (TS.mk ⟨some (sin A), some (sin B), some (sin C)⟩
      ⟨some θ0, some θ1, some θ2⟩ al me fl pe ar ob) = .ok () := by
  have hAp : A < π := by linarith
  have hBp : B < π := by linarith
  have hCp : C < π := by linarith
  have sA := Real.sin_pos_of_pos_of_lt_pi hA hAp
  have sB := Real.sin_pos_of_pos_of_lt_pi hB hBp
  have sC := Real.sin_pos_of_pos_of_lt_pi hC hCp
  have vs0 := validate_side_sineTriangle hA hB hC hAp hBp hCp hsum
  have vs1 := validate_side_sineTriangle hB hA hC hBp hAp hCp (by linarith)
  have vs2 := validate_side_sineTriangle hC hA hB hCp hAp hBp (by linarith)
  have harg0 : (sin B^2 + sin C^2 - sin A^2)/(2*sin B*sin C) = cos A :=
    cos_arg_eq hsum sB.ne' sC.ne'
  have harg1 : (sin A^2 + sin C^2 - sin B^2)/(2*sin A*sin C) = cos B :=
    cos_arg_eq (by linarith) sA.ne' sC.ne'
  have harg2 : (sin A^2 + sin B^2 - sin C^2)/(2*sin A*sin B) = cos C :=
    cos_arg_eq (by linarith) sA.ne' sB.ne'
  have hr0 : Real.arccos (cos A) = A := Real.arccos_cos hA.le hAp.le
  have hr1 : Real.arccos (cos B) = B := Real.arccos_cos hB.le hBp.le
  have hr2 : Real.arccos (cos C) = C := Real.arccos_cos hC.le hCp.le
  have hd0 : (2 * sin B * sin C) ≠ 0 := by nlinarith
  have hd1 : (2 * sin A * sin C) ≠ 0 := by nlinarith
  have hd2 : (2 * sin A * sin B) ≠ 0 := by nlinarith
  unfold validate check3 validateStep
  simp only [TS.sides_mk, TS.angles_mk, Triple.get_zero, Triple.get_one,
    Triple.get_two, Triple.rest_zero, Triple.rest_one, Triple.rest_two,
    getF_some, ok_bind]
  rw [if_pos vs0, if_pos (show validate_angle θ0 from ha0)]
  simp only [ok_bind, if_true, pure_eq_ok]
  rw [divE_ok hd0]
  simp only [ok_bind]
  rw [harg0, acosE_ok (Real.neg_one_le_cos A) (Real.cos_le_one A)]
  simp only [ok_bind]
  rw [hr0, if_pos h0]
  simp only [ok_bind, pure_eq_ok]
  rw [if_pos vs1, if_pos (show validate_angle θ1 from ha1)]
  simp only [ok_bind, if_true, pure_eq_ok]
  rw [divE_ok hd1]
  simp only [ok_bind]
  rw [harg1, acosE_ok (Real.neg_one_le_cos B) (Real.cos_le_one B)]
  simp only [ok_bind]
  rw [hr1, if_pos h1]
  simp only [ok_bind, pure_eq_ok]
  rw [if_pos vs2, if_pos (show validate_angle θ2 from ha2)]
  simp only [ok_bind, if_true, pure_eq_ok]
  rw [divE_ok hd2]
  simp only [ok_bind]
  rw [harg2, acosE_ok (Real.neg_one_le_cos C) (Real.cos_le_one C)]
  simp only [ok_bind]
  rw [hr2, if_pos h2]
  simp

/-- Complete validation fails with `InvalidTriangle` on a sine-triangle state
whose stored angle at index 0 is outside the tolerance of the
law-of-cosines recomputation. -/
theorem validate_true_sineTriangle_err0 (A B C θ0 θ1 θ2 : ℝ)
    (hA : 0 < A) (hB : 0 < B) (hC : 0 < C) (hsum : A + B + C = π)
    (h0 : ¬ isclose A θ0) (ha0 : θ0 < π)
    (al me : Triple (Option ℝ)) (fl : Bool) (pe ar : Option ℝ)
    (ob : Option TS) :
    validate true (TS.mk ⟨some (sin A), some (sin B), some (sin C)⟩
      ⟨some θ0, some θ1, some θ2⟩ al me fl pe ar ob) =
      .error (.tri .invalidTriangle) := by
  have hAp : A < π := by linarith
  have hBp : B < π := by linarith
  have hCp : C < π := by linarith
  have sB := Real.sin_pos_of_pos_of_lt_pi hB hBp
  have sC := Real.sin_pos_of_pos_of_lt_pi hC hCp
  have vs0 := validate_side_sineTriangle hA hB hC hAp hBp hCp hsum
  have harg0 : (sin B^2 + sin C^2 - sin A^2)/(2*sin B*sin C) = cos A :=
    cos_arg_eq hsum sB.ne' sC.ne'
  have hr0 : Real.arccos (cos A) = A := Real.arccos_cos hA.le hAp.le
  have hd0 : (2 * sin B * sin C) ≠ 0 := by nlinarith
  unfold validate check3 validateStep
  simp only [TS.sides_mk, TS.angles_mk, Triple.get_zero, Triple.get_one,
    Triple.get_two, Triple.rest_zero, Triple.rest_one, Triple.rest_two,
    getF_some, ok_bind]
  rw [if_pos vs0, if_pos (show validate_angle θ0 from ha0)]
  simp only [ok_bind, if_true, pure_eq_ok]
  rw [divE_ok hd0]
  simp only [ok_bind]
  rw [harg0, acosE_ok (Real.neg_one_le_cos A) (Real.cos_le_one A)]
  simp only [ok_bind]
  rw [hr0, if_neg h0]
  simp

/-- Derived-quantity computation on a state with known sides and angles
always succeeds when the sides satisfy the strict triangle inequality, and
stores the perimeter, the square-root-free Heron product, the altitudes,
and the medians. -/
theorem calculate_other_sineTriangle (A B C θ0 θ1 θ2 : ℝ)
    (hA : 0 < A) (hB : 0 < B) (hC : 0 < C) (hsum : A + B + C = π)
    (al me : Triple (Option ℝ)) (fl : Bool) (pe ar : Option ℝ)
    (ob : Option TS) :
    calculate_other (TS.mk ⟨some (sin A), some (sin B), some (sin C)⟩
      ⟨some θ0, some θ1, some θ2⟩ al me fl pe ar ob) =
      .ok (TS.mk ⟨some (sin A), some (sin B), some (sin C)⟩
        ⟨some θ0, some θ1, some θ2⟩
        ⟨some (sin θ1 * sin C), some (sin θ0 * sin C), some (sin θ0 * sin B)⟩
        ⟨some (√((sin B^2 + sin C^2 - sin A^2/2)/2)),
         some (√((sin A^2 + sin C^2 - sin B^2/2)/2)),
         some (√((sin A^2 + sin B^2 - sin C^2/2)/2))⟩
        fl (some (sin A + sin B + sin C))
        (some ((sin A + sin B + sin C)/2 * ((sin A + sin B + sin C)/2 - sin A)
          * ((sin A + sin B + sin C)/2 - sin B)
          * ((sin A + sin B + sin C)/2 - sin C)))
        ob) := by
  have hAp : A < π := by linarith
  have hBp : B < π := by linarith
  have hCp : C < π := by linarith
  have sA := Real.sin_pos_of_pos_of_lt_pi hA hAp
  have sB := Real.sin_pos_of_pos_of_lt_pi hB hBp
  have sC := Real.sin_pos_of_pos_of_lt_pi hC hCp
  have tA : sin A < sin B + sin C := sin_lt_sin_add_sin hB hC hBp hCp hsum
  have tB : sin B < sin A + sin C :=
    sin_lt_sin_add_sin hA hC hAp hCp (by linarith)
  have tC : sin C < sin A + sin B :=
    sin_lt_sin_add_sin hA hB hAp hBp (by linarith)
  have m0 : (0:ℝ) ≤ (sin B^2 + sin C^2 - sin A^2/2)/2 := by
    nlinarith [sq_nonneg (sin B - sin C),
      mul_pos (show (0:ℝ) < sin B + sin C - sin A by linarith)
        (show (0:ℝ) < sin B + sin C + sin A by linarith)]
  have m1 : (0:ℝ) ≤ (sin A^2 + sin C^2 - sin B^2/2)/2 := by
    nlinarith [sq_nonneg (sin A - sin C),
      mul_pos (show (0:ℝ) < sin A + sin C - sin B by linarith)
        (show (0:ℝ) < sin A + sin C + sin B by linarith)]
  have m2 : (0:ℝ) ≤ (sin A^2 + sin B^2 - sin C^2/2)/2 := by
    nlinarith [sq_nonneg (sin A - sin B),
      mul_pos (show (0:ℝ) < sin A + sin B - sin C by linarith)
        (show (0:ℝ) < sin A + sin B + sin C by linarith)]
  unfold calculate_other
  simp only [TS.sides_mk, TS.angles_mk, TS.altitudes_mk, TS.medians_mk,
    Triple.get_zero, Triple.get_one, Triple.get_two, Triple.rest_zero,
    Triple.rest_one, Triple.rest_two, getF_some, ok_bind]
  rw [sqrtE_ok m0]
  simp only [ok_bind, pure_eq_ok, Triple.set_zero, Triple.set_one,
    Triple.set_two]
  rw [sqrtE_ok m1]
  simp only [ok_bind, pure_eq_ok, Triple.set_zero, Triple.set_one,
    Triple.set_two]
  rw [sqrtE_ok m2]
  simp only [ok_bind, pure_eq_ok, Triple.set_zero, Triple.set_one,
    Triple.set_two]

theorem sin_arccos_rat : sin (arccos (4/5)) = 3/5 ∧ sin (arccos (3/5)) = 4/5 := by
  constructor
  · rw [Real.sin_arccos, show (1:ℝ) - (4/5)^2 = (3/5)^2 by norm_num,
      Real.sqrt_sq (by norm_num : (0:ℝ) ≤ 3/5)]
  · rw [Real.sin_arccos, show (1:ℝ) - (3/5)^2 = (4/5)^2 by norm_num,
      Real.sqrt_sq (by norm_num : (0:ℝ) ≤ 4/5)]

theorem arcsin_gt_hundredth {x : ℝ} (hx : 1/100 < x) (hx1 : x ≤ 1) :
    1/100 < Real.arcsin x := by
  by_contra hle
  push_neg at hle
  have h1 : sin (Real.arcsin x) ≤ sin (1/100) := by
    apply Real.strictMonoOn_sin.monotoneOn
    · exact ⟨Real.neg_pi_div_two_le_arcsin x, Real.arcsin_le_pi_div_two x⟩
    · constructor <;> nlinarith [Real.pi_gt_three]
    · exact hle
  rw [Real.sin_arcsin (by linarith) hx1] at h1
  have h2 : sin (1/100) < 1/100 := Real.sin_lt (by norm_num)
  linarith

/-- Wrapper of `validate_true_sineTriangle` for arbitrary side expressions
equal to the sines. -/
theorem validate_true_sineT (A B C θ0 θ1 θ2 sA sB sC : ℝ)
    (hsA : sA = sin A) (hsB : sB = sin B) (hsC : sC = sin C)
    (hA : 0 < A) (hB : 0 < B) (hC : 0 < C) (hsum : A + B + C = π)
    (h0 : isclose A θ0) (h1 : isclose B θ1) (h2 : isclose C θ2)
    (ha0 : θ0 < π) (ha1 : θ1 < π) (ha2 : θ2 < π)
    (al me : Triple (Option ℝ)) (fl : Bool) (pe ar : Option ℝ)
    (ob : Option TS) :
    validate true (TS.mk ⟨some sA, some sB, some sC⟩
      ⟨some θ0, some θ1, some θ2⟩ al me fl pe ar ob) = .ok () := by
  subst hsA hsB hsC
  exact validate_true_sineTriangle A B C θ0 θ1 θ2 hA hB hC hsum h0 h1 h2
    ha0 ha1 ha2 al me fl pe ar ob

/-- Wrapper of `calculate_other_sineTriangle` for arbitrary side expressions
equal to the sines. -/
theorem calculate_other_sineT (A B C θ0 θ1 θ2 sA sB sC : ℝ)
    (hsA : sA = sin A) (hsB : sB = sin B) (hsC : sC = sin C)
    (hA : 0 < A) (hB : 0 < B) (hC : 0 < C) (hsum : A + B + C = π)
    (al me : Triple (Option ℝ)) (fl : Bool) (pe ar : Option ℝ)
    (ob : Option TS) :
    calculate_other (TS.mk ⟨some sA, some sB, some sC⟩
      ⟨some θ0, some θ1, some θ2⟩ al me fl pe ar ob) =
      .ok (TS.mk ⟨some sA, some sB, some sC⟩ ⟨some θ0, some θ1, some θ2⟩
        ⟨some (sin θ1 * sC), some (sin θ0 * sC), some (sin θ0 * sB)⟩
        ⟨some (√((sB^2 + sC^2 - sA^2/2)/2)),
         some (√((sA^2 + sC^2 - sB^2/2)/2)),
         some (√((sA^2 + sB^2 - sC^2/2)/2))⟩
        fl (some (sA + sB + sC))
        (some ((sA + sB + sC)/2 * ((sA + sB + sC)/2 - sA)
          * ((sA + sB + sC)/2 - sB) * ((sA + sB + sC)/2 - sC)))
        ob) := by
  subst hsA hsB hsC
  exact calculate_other_sineTriangle A B C θ0 θ1 θ2 hA hB hC hsum
    al me fl pe ar ob

/-- Completing sides when everything is already known is the identity. -/
theorem calculate_two_sides_full (s0 s1 s2 θ0 θ1 θ2 : ℝ)
    (al me : Triple (Option ℝ)) (fl : Bool) (pe ar : Option ℝ)
    (ob : Option TS) :
    calculate_two_sides (.mk ⟨some s0, some s1, some s2⟩
      ⟨some θ0, some θ1, some θ2⟩ al me fl pe ar ob) =
      .ok (.mk ⟨some s0, some s1, some s2⟩ ⟨some θ0, some θ1, some θ2⟩
        al me fl pe ar ob) := by
  unfold calculate_two_sides calculate_last_angle loop3
  simp

/-! Structural lemmas: no alternate ever receives its own alternate.  The
`alternative` attribute is written only by the attachment block, whose
copy starts from `TriangleSolver()` with `alternative = None` and is
completed by methods that never touch the attribute. -/

theorem TS.alternative_setAngles (st : TS) (a : Triple (Option ℝ)) :
    (st.setAngles a).alternative = st.alternative := by
  rcases st with ⟨_, _, _, _, _, _, _, _⟩
  rfl

theorem TS.alternative_setSides (st : TS) (s : Triple (Option ℝ)) :
    (st.setSides s).alternative = st.alternative := by
  rcases st with ⟨_, _, _, _, _, _, _, _⟩
  rfl

/-- Any predicate preserved by every loop step is preserved by `loop3`. -/
theorem loop3_pred (Q : TS → Prop) (f : Fin 3 → TS → Except PyErr TS)
    (hf : ∀ i s s', f i s = .ok s' → Q s → Q s') (st st' : TS)
    (h : loop3 f st = .ok st') (hq : Q st) : Q st' := by
  unfold loop3 at h
  rcases e0 : f 0 st with e | s1 <;> rw [e0] at h
  · simp at h
  simp only [ok_bind] at h
  rcases e1 : f 1 s1 with e | s2 <;> rw [e1] at h
  · simp at h
  simp only [ok_bind] at h
  exact hf 2 s2 st' h (hf 1 s1 s2 e1 (hf 0 st s1 e0 hq))

theorem calculate_last_angle_alt {st st' : TS}
    (h : calculate_last_angle st = .ok st') :
    st'.alternative = st.alternative := by
  unfold calculate_last_angle at h
  refine loop3_pred (fun s => s.alternative = st.alternative) _ ?_ st st' h rfl
  intro i s s' hb hq
  rcases hm : s.angles.get i with _ | θ <;> rw [hm] at hb
  · rcases hr : s.angles.rest i with ⟨oa, ob⟩
    rw [hr] at hb
    rcases oa with _ | a
    · simp at hb
    rcases ob with _ | b
    · simp at hb
    simp only [getF_some, ok_bind, pure_eq_ok, Except.ok.injEq] at hb
    rw [← hb, TS.alternative_setAngles]
    exact hq
  · simp only [pure_eq_ok, Except.ok.injEq] at hb
    rw [← hb]
    exact hq

theorem calculate_two_sides_alt {st st' : TS}
    (h : calculate_two_sides st = .ok st') :
    st'.alternative = st.alternative := by
  unfold calculate_two_sides at h
  rcases e0 : calculate_last_angle st with e | s1 <;> rw [e0] at h
  · simp at h
  simp only [ok_bind] at h
  have h1 : s1.alternative = st.alternative := calculate_last_angle_alt e0
  refine (loop3_pred (fun s => s.alternative = st.alternative) _ ?_ s1 st' h h1)
  intro i s s' hb hq
  rcases hm : s.sides.get i with _ | v <;> rw [hm] at hb
  · simp only [pure_eq_ok, Except.ok.injEq] at hb
    rw [← hb]
    exact hq
  refine (loop3_pred (fun s => s.alternative = st.alternative) _ ?_ s s' hb hq)
  intro j t t' hc hqt
  rcases hn : t.sides.get j with _ | w <;> rw [hn] at hc
  · rcases ha : t.angles.get j with _ | θj <;> rw [ha] at hc
    · simp at hc
    rcases hs : t.sides.get i with _ | si <;> rw [hs] at hc
    · simp at hc
    rcases hai : t.angles.get i with _ | θi <;> rw [hai] at hc
    · simp at hc
    simp only [getF_some, ok_bind] at hc
    rcases hd : divE (sin θj * si) (sin θi) with e | v2 <;> rw [hd] at hc
    · simp at hc
    simp only [ok_bind, pure_eq_ok, Except.ok.injEq] at hc
    rw [← hc, TS.alternative_setSides]
    exact hqt
  · simp only [pure_eq_ok, Except.ok.injEq] at hc
    rw [← hc]
    exact hqt

theorem calculate_three_angles_alt {st st' : TS}
    (h : calculate_three_angles st = .ok st') :
    st'.alternative = st.alternative := by
  unfold calculate_three_angles at h
  refine loop3_pred (fun s => s.alternative = st.alternative) _ ?_ st st' h rfl
  intro i s s' hb hq
  rcases hr : s.sides.rest i with ⟨oa, ob⟩
  rw [hr] at hb
  rcases oa with _ | a
  · simp at hb
  rcases ob with _ | b
  · simp at hb
  rcases hc : s.sides.get i with _ | c <;> rw [hc] at hb
  · simp at hb
  simp only [getF_some, ok_bind] at hb
  rcases hd : divE (a^2 + b^2 - c^2) (2*a*b) with e | q <;> rw [hd] at hb
  · simp at hb
  simp only [ok_bind] at hb
  rcases he : acosE q with e | θ <;> rw [he] at hb
  · simp at hb
  simp only [ok_bind, pure_eq_ok, Except.ok.injEq] at hb
  rw [← hb, TS.alternative_setAngles]
  exact hq

theorem calculate_other_alt {st st' : TS}
    (h : calculate_other st = .ok st') :
    st'.alternative = st.alternative := by
  unfold calculate_other at h
  rcases h0 : st.sides.get 0 with _ | s0 <;> rw [h0] at h
  · simp at h
  rcases h1 : st.sides.get 1 with _ | s1 <;> rw [h1] at h
  · simp at h
  rcases h2 : st.sides.get 2 with _ | s2 <;> rw [h2] at h
  · simp at h
  simp only [getF_some, ok_bind, Triple.rest_zero, Triple.rest_one,
    Triple.rest_two, Triple.get_zero, Triple.get_one, Triple.get_two] at h
  simp only [Triple.get_zero, Triple.get_one, Triple.get_two] at h0 h1 h2
  rw [h0, h1, h2] at h
  simp only [getF_some, ok_bind] at h
  rcases ha0 : st.angles.x1 with _ | t0 <;> rw [ha0] at h
  · simp at h
  simp only [getF_some, ok_bind] at h
  rcases hs0 : sqrtE ((s1^2 + s2^2 - s0^2/2)/2) with e | m0 <;> rw [hs0] at h
  · simp at h
  simp only [ok_bind] at h
  rcases ha1 : st.angles.x0 with _ | t1 <;> rw [ha1] at h
  · simp at h
  simp only [getF_some, ok_bind] at h
  rcases hs1 : sqrtE ((s0^2 + s2^2 - s1^2/2)/2) with e | m1 <;> rw [hs1] at h
  · simp at h
  simp only [ok_bind] at h
  rcases hs2 : sqrtE ((s0^2 + s1^2 - s2^2/2)/2) with e | m2 <;> rw [hs2] at h
  · simp at h
  simp only [ok_bind] at h
  rcases st with ⟨s, a, al, me, fl, pe, ar, ob⟩
  simp only [ok_bind, pure_eq_ok, Except.ok.injEq] at h
  rw [← h]
  rfl

theorem altOk_of_eq {st st' : TS} (h : st'.alternative = st.alternative)
    (hq : altOk st) : altOk st' := fun a ha => hq a (h ▸ ha)

theorem attachAlt_alternative {st st' : TS} {j : Fin 3}
    (h : attachAlt st j = .ok st') :
    st'.sides = st.sides ∧ st'.angles = st.angles ∧
    st'.isAlternative = st.isAlternative ∧
    ∃ c, st'.alternative = some c ∧ c.alternative = none := by
  unfold attachAlt at h
  rcases hg : st.angles.get j with _ | θ <;> rw [hg] at h
  · simp at h
  simp only [getF_some, ok_bind] at h
  rcases h2 : calculate_two_sides (TS.mk st.sides (st.angles.set j
      (some (π - θ))) ⟨none, none, none⟩ ⟨none, none, none⟩ true none none
      none) with e | c1 <;> rw [h2] at h
  · simp at h
  simp only [ok_bind] at h
  rcases h3 : validate true c1 with e | u <;> rw [h3] at h
  · simp at h
  simp only [ok_bind] at h
  rcases h4 : calculate_other c1 with e | c2 <;> rw [h4] at h
  · simp at h
  simp only [ok_bind, pure_eq_ok, Except.ok.injEq] at h
  have hc1 : c1.alternative = none := calculate_two_sides_alt h2
  have hc2 : c2.alternative = none := by
    rw [calculate_other_alt h4, hc1]
  subst h
  rcases st with ⟨s, a, al, me, fl, pe, ar, ob⟩
  exact ⟨rfl, rfl, rfl, c2, rfl, hc2⟩

theorem twoAnglesInner_altOk {i j : Fin 3} {st st' : TS}
    (h : twoAnglesInner i j st = .ok st') (hq : altOk st) : altOk st' := by
  unfold twoAnglesInner at h
  rcases hm : st.sides.get j with _ | sj <;> rw [hm] at h
  · simp only [pure_eq_ok, Except.ok.injEq] at h
    rwa [← h]
  by_cases hij : i = j
  · rw [if_pos hij] at h
    simp only [pure_eq_ok, Except.ok.injEq] at h
    rwa [← h]
  rw [if_neg hij] at h
  rcases ha : st.angles.get i with _ | θi <;> rw [ha] at h
  · simp at h
  rcases hs : st.sides.get i with _ | si <;> rw [hs] at h
  · simp at h
  simp only [getF_some, ok_bind] at h
  rcases hd : divE (sin θi * sj) si with e | q <;> rw [hd] at h
  · simp at h
  simp only [ok_bind] at h
  rcases he : asinE q with e | θj <;> rw [he] at h
  · simp at h
  simp only [ok_bind] at h
  rcases hi : is_ambigous (st.setAngles (st.angles.set j (some θj))) i j
    with e | P <;> rw [hi] at h
  · simp at h
  simp only [ok_bind] at h
  have hq1 : altOk (st.setAngles (st.angles.set j (some θj))) :=
    altOk_of_eq (TS.alternative_setAngles st _) hq
  by_cases hc : P ∧ (st.setAngles (st.angles.set j (some θj))).isAlternative
      = false
  · rw [if_pos hc] at h
    rcases hat : attachAlt (st.setAngles (st.angles.set j (some θj))) j
      with e | s2 <;> rw [hat] at h
    · simp at h
    simp only [ok_bind] at h
    obtain ⟨-, -, -, c, hcs, hcn⟩ := attachAlt_alternative hat
    have hq2 : altOk s2 := by
      intro a haa
      rw [hcs] at haa
      rw [← Option.some.injEq a c |>.mp haa.symm] at hcn
      exact hcn
    exact altOk_of_eq (calculate_two_sides_alt h) hq2
  · rw [if_neg hc] at h
    simp only [ok_bind, pure_eq_ok] at h
    exact altOk_of_eq (calculate_two_sides_alt h) hq1

theorem calculate_two_angles_altOk {st st' : TS}
    (h : calculate_two_angles st = .ok st') (hq : altOk st) : altOk st' := by
  unfold calculate_two_angles at h
  refine loop3_pred altOk _ ?_ st st' h hq
  intro i s s' hb hqs
  rcases hm : s.angles.get i with _ | θi <;> rw [hm] at hb
  · simp only [pure_eq_ok, Except.ok.injEq] at hb
    rwa [← hb]
  rcases hs : s.sides.get i with _ | si <;> rw [hs] at hb
  · rcases hr : s.sides.rest i with ⟨oa, ob⟩
    rw [hr] at hb
    rcases oa with _ | a
    · simp at hb
    rcases ob with _ | b
    · simp at hb
    simp only [getF_some, ok_bind] at hb
    rcases hv : sqrtE (a^2 + b^2 - 2*a*b*cos θi) with e | v <;> rw [hv] at hb
    · simp at hb
    simp only [ok_bind] at hb
    have := calculate_three_angles_alt hb
    rw [TS.alternative_setSides] at this
    exact altOk_of_eq this hqs
  · refine loop3_pred altOk _ ?_ s s' hb hqs
    intro j t t' htc hqt
    exact twoAnglesInner_altOk htc hqt

/-- No solution returned by `TriangleSolver.solve` on a freshly initialized
solver carries an alternate that itself has an alternate. -/
theorem solveTS_altOk (sa aa : Triple (Option ℝ)) (st' : TS)
    (h : solveTS (TS.init sa aa) = .ok st') : altOk st' := by
  unfold solveTS at h
  rcases hv : validate false (TS.init sa aa) with e | u <;> rw [hv] at h
  · simp at h
  simp only [ok_bind] at h
  have hq0 : altOk (TS.init sa aa) := by
    intro a ha
    simp [TS.init] at ha
  have hnext : ∀ s1 : TS, altOk s1 →
      (do
        validate true s1
        calculate_other s1 : Except PyErr TS) = .ok st' → altOk st' := by
    intro s1 hq1 hrest
    rcases hv2 : validate true s1 with e | u2 <;> rw [hv2] at hrest
    · simp at hrest
    simp only [ok_bind] at hrest
    exact altOk_of_eq (calculate_other_alt hrest) hq1
  split at h
  · rcases hd : calculate_three_angles (TS.init sa aa) with e | s1 <;>
      rw [hd] at h
    · simp at h
    simp only [ok_bind] at h
    exact hnext s1 (altOk_of_eq (calculate_three_angles_alt hd) hq0) h
  split at h
  · rcases hd : calculate_two_angles (TS.init sa aa) with e | s1 <;>
      rw [hd] at h
    · simp at h
    simp only [ok_bind] at h
    exact hnext s1 (calculate_two_angles_altOk hd hq0) h
  split at h
  · rcases hd : calculate_two_sides (TS.init sa aa) with e | s1 <;>
      rw [hd] at h
    · simp at h
    simp only [ok_bind] at h
    exact hnext s1 (altOk_of_eq (calculate_two_sides_alt hd) hq0) h
  · simp only [ok_bind, pure_eq_ok] at h
    exact hnext _ hq0 h

/-! Facts about the C4 isoceles configuration. -/

theorem bC4_pos : 0 < bC4 := by
  unfold bC4
  linarith [Real.pi_gt_three]

theorem bC4_lt_third : bC4 < π/3 := by
  unfold bC4
  nlinarith [Real.pi_lt_four]

theorem bC4_lt_half : bC4 < π/2 := by
  unfold bC4
  norm_num

theorem bC4_lt_pi : bC4 < π := by
  linarith [bC4_lt_half, Real.pi_pos]

theorem cos_bC4_gt : 1/2 < cos bC4 := by
  have h := Real.strictAntiOn_cos ⟨bC4_pos.le, bC4_lt_pi.le⟩
    ⟨by positivity, by linarith [Real.pi_pos]⟩ bC4_lt_third
  rwa [Real.cos_pi_div_three] at h

theorem cos_bC4_lt : cos bC4 < 1 := by
  have h := Real.strictAntiOn_cos ⟨le_refl 0, Real.pi_pos.le⟩
    ⟨bC4_pos.le, bC4_lt_pi.le⟩ bC4_pos
  rwa [Real.cos_zero] at h

theorem two_bC4_lt : 2*bC4 < π/2 := by
  unfold bC4
  nlinarith [Real.pi_lt_four]

theorem two_bC4_pos : 0 < 2*bC4 := by linarith [bC4_pos]

theorem two_bC4_lt_pi : 2*bC4 < π := by linarith [two_bC4_lt, Real.pi_pos]

theorem sin12_eq : sin (12/5) = sin (2*bC4) := by
  rw [show 2*bC4 = π - 12/5 by unfold bC4; ring, Real.sin_pi_sub]

theorem cos65_eq : cos (6/5) = sin bC4 := by
  unfold bC4
  rw [Real.sin_pi_div_two_sub]

theorem sin_bC4_pos : 0 < sin bC4 :=
  Real.sin_pos_of_pos_of_lt_pi bC4_pos bC4_lt_pi

theorem sin12_pos : 0 < sin (12/5) := by
  apply Real.sin_pos_of_pos_of_lt_pi (by norm_num)
  linarith [Real.pi_gt_three]

theorem sin_bC4_lt_sin12 : sin bC4 < sin (12/5) := by
  rw [sin12_eq, Real.sin_two_mul]
  nlinarith [sin_bC4_pos, cos_bC4_gt]

theorem sin12_lt_one : sin (12/5) < 1 := by
  rw [sin12_eq]
  have h := Real.strictMonoOn_sin
    ⟨by linarith [two_bC4_pos, Real.pi_pos], two_bC4_lt.le⟩
    ⟨by linarith [Real.pi_pos], le_refl _⟩ two_bC4_lt
  rwa [Real.sin_pi_div_two] at h

theorem arcsin_sin12 : Real.arcsin (sin (12/5)) = 2*bC4 := by
  rw [sin12_eq]
  exact Real.arcsin_sin (by linarith [two_bC4_pos, Real.pi_pos]) two_bC4_lt.le

theorem arcsin_sin_bC4 : Real.arcsin (sin bC4) = bC4 :=
  Real.arcsin_sin (by linarith [bC4_pos, Real.pi_pos]) bC4_lt_half.le

theorem twelve_fifth_lt_pi : (12/5 : ℝ) < π := by linarith [Real.pi_gt_three]

theorem sum_C4 : 12/5 + bC4 + bC4 = π := by
  unfold bC4
  ring

theorem not_isclose_C4 : ¬ isclose (12/5) (2*bC4) := by
  apply not_isclose_of_lt
  · rw [abs_of_pos (by norm_num : (0:ℝ) < 12/5)]
    norm_num
  · rw [abs_of_pos two_bC4_pos]
    linarith [two_bC4_lt, Real.pi_lt_four]
  · rw [abs_of_pos (by linarith [two_bC4_lt_pi, twelve_fifth_lt_pi,
      Real.pi_lt_four, show 2*bC4 = π - 12/5 by unfold bC4; ring] :
        (0:ℝ) < 12/5 - 2*bC4)]
    have h : 2*bC4 = π - 12/5 := by unfold bC4; ring
    rw [h]
    linarith [Real.pi_lt_four]

/-! Trace of the C4 run. -/

theorem stC4_eq : stC4 = stC4n := by
  unfold stC4 stC4n
  rw [cos65_eq]

theorem validate_stC4n : validate false stC4n = .ok () := by
  unfold stC4n TS.init validate check3 validateStep
  norm_num [validate_side, validate_angle, countKnown, twelve_fifth_lt_pi]

theorem two_sides_C4 :
    calculate_two_sides (.mk ⟨some (sin (12/5)), some (sin bC4), none⟩
      ⟨some (12/5), some bC4, none⟩ ⟨none, none, none⟩ ⟨none, none, none⟩
      false none none none) = .ok stC4b := by
  unfold stC4b calculate_two_sides calculate_last_angle loop3
  simp only [TS.sides_mk, TS.angles_mk, Triple.get_zero, Triple.get_one,
    Triple.get_two, Triple.rest_zero, Triple.rest_one, Triple.rest_two,
    getF_some, ok_bind, pure_eq_ok, TS.setAngles_mk, TS.setSides_mk,
    Triple.set_zero, Triple.set_one, Triple.set_two]
  rw [show π - (12/5 + bC4) = bC4 by unfold bC4; ring]
  rw [divE_ok sin12_pos.ne']
  rw [mul_div_assoc, div_self sin12_pos.ne', mul_one]
  simp

theorem inner01_C4 : twoAnglesInner 0 1 stC4n = .ok stC4b := by
  unfold stC4n TS.init twoAnglesInner
  simp only [TS.sides_mk, TS.angles_mk, Triple.get_zero, Triple.get_one,
    Triple.get_two, getF_some, ok_bind]
  rw [if_neg (by decide : ¬(0 : Fin 3) = 1)]
  rw [divE_ok sin12_pos.ne']
  simp only [ok_bind]
  rw [mul_div_cancel_left₀ _ sin12_pos.ne',
    asinE_ok (Real.neg_one_le_sin _) (Real.sin_le_one _), arcsin_sin_bC4]
  simp only [ok_bind, TS.setAngles_mk, Triple.set_one]
  unfold is_ambigous
  simp only [TS.sides_mk, TS.angles_mk, TS.isAlternative_mk, Triple.get_zero,
    Triple.get_one, getF_some, ok_bind]
  rw [if_pos bC4_lt_half]
  rw [if_neg (not_lt.mpr sin_bC4_lt_sin12.le)]
  simp only [ok_bind, pure_eq_ok]
  rw [if_neg (by simp : ¬(False ∧ True))]
  exact two_sides_C4

theorem twoAnglesInner_diag (i : Fin 3) (st : TS) :
    twoAnglesInner i i st = .ok st := by
  unfold twoAnglesInner
  rcases h : st.sides.get i with _ | v <;> simp [h]



theorem inner02_C4 : twoAnglesInner 0 2 stC4b = .ok stC4b := by
  unfold stC4b twoAnglesInner
  simp only [TS.sides_mk, TS.angles_mk, Triple.get_zero, Triple.get_two,
    getF_some, ok_bind]
  rw [if_neg (by decide : ¬(0 : Fin 3) = 2)]
  rw [divE_ok sin12_pos.ne']
  simp only [ok_bind]
  rw [mul_div_cancel_left₀ _ sin12_pos.ne',
    asinE_ok (Real.neg_one_le_sin _) (Real.sin_le_one _), arcsin_sin_bC4]
  simp only [ok_bind, TS.setAngles_mk, Triple.set_two]
  unfold is_ambigous
  simp only [TS.sides_mk, TS.angles_mk, TS.isAlternative_mk, Triple.get_zero,
    Triple.get_two, getF_some, ok_bind]
  rw [if_pos bC4_lt_half]
  rw [if_neg (not_lt.mpr sin_bC4_lt_sin12.le)]
  simp only [ok_bind, pure_eq_ok]
  rw [if_neg (by simp : ¬(False ∧ True))]
  exact calculate_two_sides_full _ _ _ _ _ _ _ _ _ _ _ _

theorem attach_C4 (al me : Triple (Option ℝ)) (fl : Bool) (pe ar : Option ℝ)
    (ob : Option TS) :
    attachAlt (.mk ⟨some (sin (12/5)), some (sin bC4), some (sin bC4)⟩
      ⟨some (2*bC4), some bC4, some bC4⟩ al me fl pe ar ob) 0 =
      .ok (.mk ⟨some (sin (12/5)), some (sin bC4), some (sin bC4)⟩
        ⟨some (2*bC4), some bC4, some bC4⟩ al me fl pe ar (some altC4)) := by
  unfold attachAlt
  simp only [TS.sides_mk, TS.angles_mk, Triple.get_zero, getF_some, ok_bind,
    Triple.set_zero]
  rw [show π - 2*bC4 = 12/5 by unfold bC4; ring]
  rw [calculate_two_sides_full]
  simp only [ok_bind]
  rw [validate_true_sineTriangle (12/5) bC4 bC4 (12/5) bC4 bC4 (by norm_num)
    bC4_pos bC4_pos sum_C4 (isclose_refl _) (isclose_refl _) (isclose_refl _)
    twelve_fifth_lt_pi bC4_lt_pi bC4_lt_pi _ _ _ _ _ _]
  simp only [ok_bind]
  rw [calculate_other_sineTriangle (12/5) bC4 bC4 (12/5) bC4 bC4 (by norm_num)
    bC4_pos bC4_pos sum_C4 _ _ _ _ _ _]
  simp only [ok_bind, TS.setAlternative_mk, pure_eq_ok]
  rfl

theorem inner10_C4 : twoAnglesInner 1 0 stC4b = .ok stC4d := by
  unfold stC4b stC4d twoAnglesInner
  simp only [TS.sides_mk, TS.angles_mk, Triple.get_zero, Triple.get_one,
    getF_some, ok_bind]
  rw [if_neg (by decide : ¬(1 : Fin 3) = 0)]
  rw [divE_ok sin_bC4_pos.ne']
  simp only [ok_bind]
  rw [mul_div_cancel_left₀ _ sin_bC4_pos.ne',
    asinE_ok (Real.neg_one_le_sin _) (Real.sin_le_one _), arcsin_sin12]
  simp only [ok_bind, TS.setAngles_mk, Triple.set_zero]
  unfold is_ambigous
  simp only [TS.sides_mk, TS.angles_mk, TS.isAlternative_mk, Triple.get_zero,
    Triple.get_one, getF_some, ok_bind]
  rw [if_pos two_bC4_lt]
  rw [if_pos sin_bC4_lt_sin12]
  simp only [ok_bind, pure_eq_ok]
  have hgt : sin bC4 > sin (12/5) * sin bC4 := by
    nlinarith [sin_bC4_pos, sin12_lt_one, sin12_pos]
  rw [if_pos (by exact ⟨hgt, by simp⟩ :
    (sin bC4 > sin (12/5) * sin bC4) ∧ True)]
  rw [attach_C4]
  simp only [ok_bind]
  exact calculate_two_sides_full _ _ _ _ _ _ _ _ _ _ _ _

theorem inner12_C4 : twoAnglesInner 1 2 stC4d = .ok stC4d := by
  unfold stC4d twoAnglesInner
  simp only [TS.sides_mk, TS.angles_mk, Triple.get_one, Triple.get_two,
    getF_some, ok_bind]
  rw [if_neg (by decide : ¬(1 : Fin 3) = 2)]
  rw [divE_ok sin_bC4_pos.ne']
  simp only [ok_bind]
  rw [mul_div_cancel_left₀ _ sin_bC4_pos.ne',
    asinE_ok (Real.neg_one_le_sin _) (Real.sin_le_one _), arcsin_sin_bC4]
  simp only [ok_bind, TS.setAngles_mk, Triple.set_two]
  unfold is_ambigous
  simp only [TS.sides_mk, TS.angles_mk, TS.isAlternative_mk, Triple.get_one,
    Triple.get_two, getF_some, ok_bind]
  rw [if_pos bC4_lt_half]
  rw [if_neg (lt_irrefl (sin bC4))]
  simp only [ok_bind, pure_eq_ok]
  rw [if_neg (by simp : ¬(False ∧ True))]
  exact calculate_two_sides_full _ _ _ _ _ _ _ _ _ _ _ _

theorem inner20_C4 : twoAnglesInner 2 0 stC4d = .ok stC4d := by
  unfold stC4d twoAnglesInner
  simp only [TS.sides_mk, TS.angles_mk, Triple.get_zero, Triple.get_two,
    getF_some, ok_bind]
  rw [if_neg (by decide : ¬(2 : Fin 3) = 0)]
  rw [divE_ok sin_bC4_pos.ne']
  simp only [ok_bind]
  rw [mul_div_cancel_left₀ _ sin_bC4_pos.ne',
    asinE_ok (Real.neg_one_le_sin _) (Real.sin_le_one _), arcsin_sin12]
  simp only [ok_bind, TS.setAngles_mk, Triple.set_zero]
  unfold is_ambigous
  simp only [TS.sides_mk, TS.angles_mk, TS.isAlternative_mk, Triple.get_zero,
    Triple.get_two, getF_some, ok_bind]
  rw [if_pos two_bC4_lt]
  rw [if_pos sin_bC4_lt_sin12]
  simp only [ok_bind, pure_eq_ok]
  have hgt : sin bC4 > sin (12/5) * sin bC4 := by
    nlinarith [sin_bC4_pos, sin12_lt_one, sin12_pos]
  rw [if_pos (by exact ⟨hgt, by simp⟩ :
    (sin bC4 > sin (12/5) * sin bC4) ∧ True)]
  rw [attach_C4]
  simp only [ok_bind]
  exact calculate_two_sides_full _ _ _ _ _ _ _ _ _ _ _ _

theorem inner21_C4 : twoAnglesInner 2 1 stC4d = .ok stC4d := by
  unfold stC4d twoAnglesInner
  simp only [TS.sides_mk, TS.angles_mk, Triple.get_one, Triple.get_two,
    getF_some, ok_bind]
  rw [if_neg (by decide : ¬(2 : Fin 3) = 1)]
  rw [divE_ok sin_bC4_pos.ne']
  simp only [ok_bind]
  rw [mul_div_cancel_left₀ _ sin_bC4_pos.ne',
    asinE_ok (Real.neg_one_le_sin _) (Real.sin_le_one _), arcsin_sin_bC4]
  simp only [ok_bind, TS.setAngles_mk, Triple.set_one]
  unfold is_ambigous
  simp only [TS.sides_mk, TS.angles_mk, TS.isAlternative_mk, Triple.get_one,
    Triple.get_two, getF_some, ok_bind]
  rw [if_pos bC4_lt_half]
  rw [if_neg (lt_irrefl (sin bC4))]
  simp only [ok_bind, pure_eq_ok]
  rw [if_neg (by simp : ¬(False ∧ True))]
  exact calculate_two_sides_full _ _ _ _ _ _ _ _ _ _ _ _

theorem twoAngles_C4 : calculate_two_angles stC4n = .ok stC4d := by
  unfold calculate_two_angles loop3
  beta_reduce
  rw [show stC4n.angles.get 0 = some (12/5) from rfl,
    show stC4n.sides.get 0 = some (sin (12/5)) from rfl]
  simp only [ok_bind]
  rw [twoAnglesInner_diag]
  simp only [ok_bind]
  rw [inner01_C4]
  simp only [ok_bind]
  rw [inner02_C4]
  simp only [ok_bind]
  rw [show stC4b.angles.get 1 = some bC4 from rfl,
    show stC4b.sides.get 1 = some (sin bC4) from rfl]
  simp only [ok_bind]
  rw [inner10_C4]
  simp only [ok_bind]
  rw [twoAnglesInner_diag]
  simp only [ok_bind]
  rw [inner12_C4]
  simp only [ok_bind]
  rw [show stC4d.angles.get 2 = some bC4 from rfl,
    show stC4d.sides.get 2 = some (sin bC4) from rfl]
  simp only [ok_bind]
  rw [inner20_C4]
  simp only [ok_bind]
  rw [inner21_C4]
  simp only [ok_bind]
  rw [twoAnglesInner_diag]

theorem validate_stC4d : validate true stC4d = .error (.tri .invalidTriangle) := by
  unfold stC4d
  exact validate_true_sineTriangle_err0 (12/5) bC4 bC4 (2*bC4) bC4 bC4
    (by norm_num) bC4_pos bC4_pos sum_C4 not_isclose_C4 two_bC4_lt_pi
    _ _ _ _ _ _

theorem solveTS_C4 : solveTS stC4 = .error (.tri .invalidTriangle) := by
  rw [stC4_eq]
  unfold solveTS
  rw [validate_stC4n]
  simp only [ok_bind]
  rw [show countKnown stC4n.sides = 2 from rfl]
  rw [if_neg (by decide : ¬(2 = 3)), if_pos rfl]
  rw [twoAngles_C4]
  simp only [ok_bind]
  rw [validate_stC4d]
  simp

/-! Facts about the C5 configuration. -/

theorem aC5_pos : 0 < aC5 := by
  unfold aC5
  linarith [Real.pi_gt_three]

theorem aC5_lt_half : aC5 < π/2 := by
  unfold aC5
  norm_num

theorem aC5_lt_pi : aC5 < π := by linarith [aC5_lt_half, Real.pi_pos]

theorem seven_tenth_lt_aC5 : (7:ℝ)/10 < aC5 := by
  unfold aC5
  linarith [Real.pi_gt_three]

theorem seven_tenth_lt_half : (7:ℝ)/10 < π/2 := by linarith [Real.pi_gt_three]

theorem seven_tenth_lt_pi : (7:ℝ)/10 < π := by linarith [Real.pi_gt_three]

theorem cC5_pos : 0 < cC5 := by
  unfold cC5
  linarith [Real.pi_pos]

theorem cC5_lt_pi : cC5 < π := by
  unfold cC5
  linarith [Real.pi_gt_three]

theorem wC5_pos : 0 < wC5 := by
  unfold wC5
  linarith [Real.pi_gt_three]

theorem wC5_lt_half : wC5 < π/2 := by
  unfold wC5
  norm_num

theorem wC5_lt_pi : wC5 < π := by linarith [wC5_lt_half, Real.pi_pos]

theorem sumC5 : 7/10 + aC5 + cC5 = π := by
  unfold aC5 cC5
  ring

theorem sumC5alt : 7/10 + (π - aC5) + (aC5 - 7/10) = π := by ring

theorem cos88_eq : cos (88/125) = sin aC5 := by
  unfold aC5
  rw [Real.sin_pi_div_two_sub]

theorem sin_wC5 : sin wC5 = cos (1/250) := by
  unfold wC5
  rw [Real.sin_pi_div_two_sub]

theorem sin_cC5 : sin cC5 = cos (1/250) := by
  rw [show cC5 = π - wC5 by unfold cC5 wC5; ring, Real.sin_pi_sub, sin_wC5]

theorem sin710_pos : 0 < sin (7/10) :=
  Real.sin_pos_of_pos_of_lt_pi (by norm_num) seven_tenth_lt_pi

theorem sin_aC5_pos : 0 < sin aC5 :=
  Real.sin_pos_of_pos_of_lt_pi aC5_pos aC5_lt_pi

theorem cos250_pos : 0 < cos (1/250) := by
  rw [← sin_wC5]
  exact Real.sin_pos_of_pos_of_lt_pi wC5_pos wC5_lt_pi

theorem sin710_lt_sin_aC5 : sin (7/10) < sin aC5 :=
  Real.strictMonoOn_sin
    ⟨by linarith [Real.pi_pos], by linarith [seven_tenth_lt_half]⟩
    ⟨by linarith [aC5_pos, Real.pi_pos], aC5_lt_half.le⟩ seven_tenth_lt_aC5

theorem sin_aC5_lt_cos250 : sin aC5 < cos (1/250) := by
  rw [← sin_wC5]
  exact Real.strictMonoOn_sin
    ⟨by linarith [aC5_pos, Real.pi_pos], aC5_lt_half.le⟩
    ⟨by linarith [wC5_pos, Real.pi_pos], wC5_lt_half.le⟩
    (by unfold aC5 wC5; norm_num)

theorem sin710_lt_cos250 : sin (7/10) < cos (1/250) := by
  rw [← sin_wC5]
  exact Real.strictMonoOn_sin
    ⟨by linarith [Real.pi_pos], by linarith [seven_tenth_lt_half]⟩
    ⟨by linarith [wC5_pos, Real.pi_pos], wC5_lt_half.le⟩
    (by unfold wC5; linarith [Real.pi_gt_three])

theorem cos250_lt_one : cos (1/250) < 1 := by
  rw [← sin_wC5]
  have h := Real.strictMonoOn_sin
    ⟨by linarith [wC5_pos, Real.pi_pos], wC5_lt_half.le⟩
    ⟨by linarith [Real.pi_pos], le_refl _⟩ wC5_lt_half
  rwa [Real.sin_pi_div_two] at h

theorem sin_aC5_lt_one : sin aC5 < 1 := by
  have h := Real.strictMonoOn_sin
    ⟨by linarith [aC5_pos, Real.pi_pos], aC5_lt_half.le⟩
    ⟨by linarith [Real.pi_pos], le_refl _⟩ aC5_lt_half
  rwa [Real.sin_pi_div_two] at h

theorem arcsin_sin_aC5 : Real.arcsin (sin aC5) = aC5 :=
  Real.arcsin_sin (by linarith [aC5_pos, Real.pi_pos]) aC5_lt_half.le

theorem arcsin_cos250 : Real.arcsin (cos (1/250)) = wC5 := by
  rw [← sin_wC5]
  exact Real.arcsin_sin (by linarith [wC5_pos, Real.pi_pos]) wC5_lt_half.le

theorem arcsin_sin710 : Real.arcsin (sin (7/10)) = 7/10 :=
  Real.arcsin_sin (by linarith [Real.pi_pos]) seven_tenth_lt_half.le

theorem isclose_cC5_wC5 : isclose cC5 wC5 := by
  apply isclose_of_abs_le
  rw [show cC5 - wC5 = 1/125 by unfold cC5 wC5; ring,
    abs_of_pos (by norm_num : (0:ℝ) < 1/125)]
  norm_num

theorem aC5_ne_flip : aC5 ≠ π - aC5 := by
  intro h
  unfold aC5 at h
  linarith

/-! Trace of the C5 run. -/

theorem stC5_eq : stC5 = stC5n := by
  unfold stC5 stC5n
  rw [cos88_eq]

theorem validate_stC5n : validate false stC5n = .ok () := by
  unfold stC5n TS.init validate check3 validateStep
  norm_num [validate_side, validate_angle, countKnown, seven_tenth_lt_pi]

theorem two_sides_C5a :
    calculate_two_sides (.mk ⟨some (sin (7/10)), some (sin aC5), none⟩
      ⟨some (7/10), some (π - aC5), none⟩ ⟨none, none, none⟩
      ⟨none, none, none⟩ true none none none) =
      .ok (.mk ⟨some (sin (7/10)), some (sin aC5), some (sin (aC5 - 7/10))⟩
        ⟨some (7/10), some (π - aC5), some (aC5 - 7/10)⟩ ⟨none, none, none⟩
        ⟨none, none, none⟩ true none none none) := by
  unfold calculate_two_sides calculate_last_angle loop3
  simp only [TS.sides_mk, TS.angles_mk, Triple.get_zero, Triple.get_one,
    Triple.get_two, Triple.rest_zero, Triple.rest_one, Triple.rest_two,
    getF_some, ok_bind, pure_eq_ok, TS.setAngles_mk, TS.setSides_mk,
    Triple.set_zero, Triple.set_one, Triple.set_two]
  rw [show π - (7/10 + (π - aC5)) = aC5 - 7/10 by ring]
  rw [divE_ok sin710_pos.ne']
  rw [mul_div_assoc, div_self sin710_pos.ne', mul_one]
  simp

theorem attach_C5a :
    attachAlt (.mk ⟨some (sin (7/10)), some (sin aC5), none⟩
      ⟨some (7/10), some aC5, none⟩ ⟨none, none, none⟩ ⟨none, none, none⟩
      false none none none) 1 =
      .ok (.mk ⟨some (sin (7/10)), some (sin aC5), none⟩
        ⟨some (7/10), some aC5, none⟩ ⟨none, none, none⟩ ⟨none, none, none⟩
        false none none (some altC5a)) := by
  unfold attachAlt
  simp only [TS.sides_mk, TS.angles_mk, Triple.get_one, getF_some, ok_bind,
    Triple.set_one]
  rw [two_sides_C5a]
  simp only [ok_bind]
  rw [validate_true_sineT (7/10) (π - aC5) (aC5 - 7/10) (7/10) (π - aC5)
    (aC5 - 7/10) (sin (7/10)) (sin aC5) (sin (aC5 - 7/10)) rfl
    (Real.sin_pi_sub aC5).symm rfl (by norm_num)
    (by linarith [aC5_lt_pi]) (by linarith [seven_tenth_lt_aC5]) sumC5alt
    (isclose_refl _) (isclose_refl _) (isclose_refl _) seven_tenth_lt_pi
    (by linarith [aC5_pos]) (by linarith [aC5_lt_pi, seven_tenth_lt_pi,
      Real.pi_pos]) _ _ _ _ _ _]
  simp only [ok_bind]
  rw [calculate_other_sineT (7/10) (π - aC5) (aC5 - 7/10) (7/10) (π - aC5)
    (aC5 - 7/10) (sin (7/10)) (sin aC5) (sin (aC5 - 7/10)) rfl
    (Real.sin_pi_sub aC5).symm rfl (by norm_num)
    (by linarith [aC5_lt_pi]) (by linarith [seven_tenth_lt_aC5]) sumC5alt
    _ _ _ _ _ _]
  simp only [ok_bind, TS.setAlternative_mk, pure_eq_ok]
  rfl

theorem two_sides_C5p :
    calculate_two_sides (.mk ⟨some (sin (7/10)), some (sin aC5), none⟩
      ⟨some (7/10), some aC5, none⟩ ⟨none, none, none⟩ ⟨none, none, none⟩
      false none none (some altC5a)) = .ok stC5b := by
  unfold stC5b calculate_two_sides calculate_last_angle loop3
  simp only [TS.sides_mk, TS.angles_mk, Triple.get_zero, Triple.get_one,
    Triple.get_two, Triple.rest_zero, Triple.rest_one, Triple.rest_two,
    getF_some, ok_bind, pure_eq_ok, TS.setAngles_mk, TS.setSides_mk,
    Triple.set_zero, Triple.set_one, Triple.set_two]
  rw [show π - (7/10 + aC5) = cC5 by unfold aC5 cC5; ring]
  rw [divE_ok sin710_pos.ne']
  rw [mul_div_assoc, div_self sin710_pos.ne', mul_one, sin_cC5]
  simp

theorem inner01_C5 : twoAnglesInner 0 1 stC5n = .ok stC5b := by
  unfold stC5n TS.init twoAnglesInner
  simp only [TS.sides_mk, TS.angles_mk, Triple.get_zero, Triple.get_one,
    Triple.get_two, getF_some, ok_bind]
  rw [if_neg (by decide : ¬(0 : Fin 3) = 1)]
  rw [divE_ok sin710_pos.ne']
  simp only [ok_bind]
  rw [mul_div_cancel_left₀ _ sin710_pos.ne',
    asinE_ok (Real.neg_one_le_sin _) (Real.sin_le_one _), arcsin_sin_aC5]
  simp only [ok_bind, TS.setAngles_mk, Triple.set_one]
  unfold is_ambigous
  simp only [TS.sides_mk, TS.angles_mk, TS.isAlternative_mk, Triple.get_zero,
    Triple.get_one, getF_some, ok_bind]
  rw [if_pos aC5_lt_half]
  rw [if_pos sin710_lt_sin_aC5]
  simp only [ok_bind, pure_eq_ok]
  have hgt : sin (7/10) > sin aC5 * sin (7/10) := by
    nlinarith [sin710_pos, sin_aC5_lt_one, sin_aC5_pos]
  rw [if_pos (by exact ⟨hgt, by simp⟩ :
    (sin (7/10) > sin aC5 * sin (7/10)) ∧ True)]
  rw [attach_C5a]
  simp only [ok_bind]
  exact two_sides_C5p

theorem attach_C5b (ob : Option TS) :
    attachAlt (.mk ⟨some (sin (7/10)), some (sin aC5), some (cos (1/250))⟩
      ⟨some (7/10), some aC5, some wC5⟩ ⟨none, none, none⟩ ⟨none, none, none⟩
      false none none ob) 2 =
      .ok (.mk ⟨some (sin (7/10)), some (sin aC5), some (cos (1/250))⟩
        ⟨some (7/10), some aC5, some wC5⟩ ⟨none, none, none⟩
        ⟨none, none, none⟩ false none none (some altC5b)) := by
  unfold attachAlt
  simp only [TS.sides_mk, TS.angles_mk, Triple.get_two, getF_some, ok_bind,
    Triple.set_two]
  rw [show π - wC5 = cC5 by unfold wC5 cC5; ring]
  rw [calculate_two_sides_full]
  simp only [ok_bind]
  rw [validate_true_sineT (7/10) aC5 cC5 (7/10) aC5 cC5 (sin (7/10))
    (sin aC5) (cos (1/250)) rfl rfl sin_cC5.symm (by norm_num) aC5_pos
    cC5_pos sumC5 (isclose_refl _) (isclose_refl _) (isclose_refl _)
    seven_tenth_lt_pi aC5_lt_pi cC5_lt_pi _ _ _ _ _ _]
  simp only [ok_bind]
  rw [calculate_other_sineT (7/10) aC5 cC5 (7/10) aC5 cC5 (sin (7/10))
    (sin aC5) (cos (1/250)) rfl rfl sin_cC5.symm (by norm_num) aC5_pos
    cC5_pos sumC5 _ _ _ _ _ _]
  simp only [ok_bind, TS.setAlternative_mk, pure_eq_ok]
  rfl

theorem inner02_C5 : twoAnglesInner 0 2 stC5b = .ok stC5c := by
  unfold stC5b stC5c twoAnglesInner
  simp only [TS.sides_mk, TS.angles_mk, Triple.get_zero, Triple.get_two,
    getF_some, ok_bind]
  rw [if_neg (by decide : ¬(0 : Fin 3) = 2)]
  rw [divE_ok sin710_pos.ne']
  simp only [ok_bind]
  rw [mul_div_cancel_left₀ _ sin710_pos.ne',
    asinE_ok (Real.neg_one_le_cos _) (Real.cos_le_one _), arcsin_cos250]
  simp only [ok_bind, TS.setAngles_mk, Triple.set_two]
  unfold is_ambigous
  simp only [TS.sides_mk, TS.angles_mk, TS.isAlternative_mk, Triple.get_zero,
    Triple.get_two, getF_some, ok_bind]
  rw [if_pos wC5_lt_half]
  rw [if_pos sin710_lt_cos250]
  simp only [ok_bind, pure_eq_ok]
  have hgt : sin (7/10) > cos (1/250) * sin (7/10) := by
    nlinarith [sin710_pos, cos250_lt_one, cos250_pos]
  rw [if_pos (by exact ⟨hgt, by simp⟩ :
    (sin (7/10) > cos (1/250) * sin (7/10)) ∧ True)]
  rw [attach_C5b]
  simp only [ok_bind]
  exact calculate_two_sides_full _ _ _ _ _ _ _ _ _ _ _ _

theorem inner10_C5 : twoAnglesInner 1 0 stC5c = .ok stC5c := by
  unfold stC5c twoAnglesInner
  simp only [TS.sides_mk, TS.angles_mk, Triple.get_zero, Triple.get_one,
    getF_some, ok_bind]
  rw [if_neg (by decide : ¬(1 : Fin 3) = 0)]
  rw [divE_ok sin_aC5_pos.ne']
  simp only [ok_bind]
  rw [mul_div_cancel_left₀ _ sin_aC5_pos.ne',
    asinE_ok (Real.neg_one_le_sin _) (Real.sin_le_one _), arcsin_sin710]
  simp only [ok_bind, TS.setAngles_mk, Triple.set_zero]
  unfold is_ambigous
  simp only [TS.sides_mk, TS.angles_mk, TS.isAlternative_mk, Triple.get_zero,
    Triple.get_one, getF_some, ok_bind]
  rw [if_pos seven_tenth_lt_half]
  rw [if_neg (not_lt.mpr sin710_lt_sin_aC5.le)]
  simp only [ok_bind, pure_eq_ok]
  rw [if_neg (by simp : ¬(False ∧ True))]
  exact calculate_two_sides_full _ _ _ _ _ _ _ _ _ _ _ _

theorem inner12_C5 : twoAnglesInner 1 2 stC5c = .ok stC5c := by
  unfold stC5c twoAnglesInner
  simp only [TS.sides_mk, TS.angles_mk, Triple.get_one, Triple.get_two,
    getF_some, ok_bind]
  rw [if_neg (by decide : ¬(1 : Fin 3) = 2)]
  rw [divE_ok sin_aC5_pos.ne']
  simp only [ok_bind]
  rw [mul_div_cancel_left₀ _ sin_aC5_pos.ne',
    asinE_ok (Real.neg_one_le_cos _) (Real.cos_le_one _), arcsin_cos250]
  simp only [ok_bind, TS.setAngles_mk, Triple.set_two]
  unfold is_ambigous
  simp only [TS.sides_mk, TS.angles_mk, TS.isAlternative_mk, Triple.get_one,
    Triple.get_two, getF_some, ok_bind]
  rw [if_pos wC5_lt_half]
  rw [if_pos sin_aC5_lt_cos250]
  simp only [ok_bind, pure_eq_ok]
  have hgt : sin aC5 > cos (1/250) * sin aC5 := by
    nlinarith [sin_aC5_pos, cos250_lt_one, cos250_pos]
  rw [if_pos (by exact ⟨hgt, by simp⟩ :
    (sin aC5 > cos (1/250) * sin aC5) ∧ True)]
  rw [attach_C5b]
  simp only [ok_bind]
  exact calculate_two_sides_full _ _ _ _ _ _ _ _ _ _ _ _

theorem inner20_C5 : twoAnglesInner 2 0 stC5c = .ok stC5c := by
  unfold stC5c twoAnglesInner
  simp only [TS.sides_mk, TS.angles_mk, Triple.get_zero, Triple.get_two,
    getF_some, ok_bind]
  rw [if_neg (by decide : ¬(2 : Fin 3) = 0)]
  rw [sin_wC5, divE_ok cos250_pos.ne']
  simp only [ok_bind]
  rw [mul_div_cancel_left₀ _ cos250_pos.ne',
    asinE_ok (Real.neg_one_le_sin _) (Real.sin_le_one _), arcsin_sin710]
  simp only [ok_bind, TS.setAngles_mk, Triple.set_zero]
  unfold is_ambigous
  simp only [TS.sides_mk, TS.angles_mk, TS.isAlternative_mk, Triple.get_zero,
    Triple.get_two, getF_some, ok_bind]
  rw [if_pos seven_tenth_lt_half]
  rw [if_neg (not_lt.mpr sin710_lt_cos250.le)]
  simp only [ok_bind, pure_eq_ok]
  rw [if_neg (by simp : ¬(False ∧ True))]
  exact calculate_two_sides_full _ _ _ _ _ _ _ _ _ _ _ _

theorem inner21_C5 : twoAnglesInner 2 1 stC5c = .ok stC5c := by
  unfold stC5c twoAnglesInner
  simp only [TS.sides_mk, TS.angles_mk, Triple.get_one, Triple.get_two,
    getF_some, ok_bind]
  rw [if_neg (by decide : ¬(2 : Fin 3) = 1)]
  rw [sin_wC5, divE_ok cos250_pos.ne']
  simp only [ok_bind]
  rw [mul_div_cancel_left₀ _ cos250_pos.ne',
    asinE_ok (Real.neg_one_le_sin _) (Real.sin_le_one _), arcsin_sin_aC5]
  simp only [ok_bind, TS.setAngles_mk, Triple.set_one]
  unfold is_ambigous
  simp only [TS.sides_mk, TS.angles_mk, TS.isAlternative_mk, Triple.get_one,
    Triple.get_two, getF_some, ok_bind]
  rw [if_pos aC5_lt_half]
  rw [if_neg (not_lt.mpr sin_aC5_lt_cos250.le)]
  simp only [ok_bind, pure_eq_ok]
  rw [if_neg (by simp : ¬(False ∧ True))]
  exact calculate_two_sides_full _ _ _ _ _ _ _ _ _ _ _ _

theorem twoAngles_C5 : calculate_two_angles stC5n = .ok stC5c := by
  unfold calculate_two_angles loop3
  beta_reduce
  rw [show stC5n.angles.get 0 = some (7/10) from rfl,
    show stC5n.sides.get 0 = some (sin (7/10)) from rfl]
  simp only [ok_bind]
  rw [twoAnglesInner_diag]
  simp only [ok_bind]
  rw [inner01_C5]
  simp only [ok_bind]
  rw [inner02_C5]
  simp only [ok_bind]
  rw [show stC5c.angles.get 1 = some aC5 from rfl,
    show stC5c.sides.get 1 = some (sin aC5) from rfl]
  simp only [ok_bind]
  rw [inner10_C5]
  simp only [ok_bind]
  rw [twoAnglesInner_diag]
  simp only [ok_bind]
  rw [inner12_C5]
  simp only [ok_bind]
  rw [show stC5c.angles.get 2 = some wC5 from rfl,
    show stC5c.sides.get 2 = some (cos (1/250)) from rfl]
  simp only [ok_bind]
  rw [inner20_C5]
  simp only [ok_bind]
  rw [inner21_C5]
  simp only [ok_bind]
  rw [twoAnglesInner_diag]

theorem validate_stC5c : validate true stC5c = .ok () := by
  unfold stC5c
  exact validate_true_sineT (7/10) aC5 cC5 (7/10) aC5 wC5 (sin (7/10))
    (sin aC5) (cos (1/250)) rfl rfl sin_cC5.symm (by norm_num) aC5_pos
    cC5_pos sumC5 (isclose_refl _) (isclose_refl _) isclose_cC5_wC5
    seven_tenth_lt_pi aC5_lt_pi wC5_lt_pi _ _ _ _ _ _

theorem other_stC5c : calculate_other stC5c = .ok resC5 := by
  unfold stC5c resC5
  exact calculate_other_sineT (7/10) aC5 cC5 (7/10) aC5 wC5 (sin (7/10))
    (sin aC5) (cos (1/250)) rfl rfl sin_cC5.symm (by norm_num) aC5_pos
    cC5_pos sumC5 _ _ _ _ _ _

theorem solveTS_C5 : solveTS stC5 = .ok resC5 := by
  rw [stC5_eq]
  unfold solveTS
  rw [validate_stC5n]
  simp only [ok_bind]
  rw [show countKnown stC5n.sides = 2 from rfl]
  rw [if_neg (by decide : ¬(2 = 3)), if_pos rfl]
  rw [twoAngles_C5]
  simp only [ok_bind]
  rw [validate_stC5c]
  simp only [ok_bind]
  exact other_stC5c

/-! Evaluation of the 3-4-5 SSS run. -/

theorem validate_st345 : validate false st345 = .ok () := by
  unfold st345 TS.init validate check3 validateStep
  norm_num [validate_side, countKnown, abs]

theorem threeAngles_st345 : calculate_three_angles st345 = .ok st345angles := by
  unfold st345 st345angles TS.init calculate_three_angles loop3
  norm_num [divE_ok, acosE_ok, Real.arccos_zero]

theorem validate_st345angles : validate true st345angles = .ok () := by
  unfold st345angles validate check3 validateStep
  norm_num [validate_side, validate_angle, divE_ok, acosE_ok, Real.arccos_zero,
    arccos_lt_pi', isclose_refl, abs, Real.pi_pos]

theorem other_st345angles : calculate_other st345angles = .ok res345 := by
  unfold st345angles res345 calculate_other
  norm_num [sqrtE_ok]

theorem solveTS_345 : solveTS st345 = .ok res345 := by
  unfold solveTS
  rw [validate_st345]
  simp only [ok_bind]
  have hc : countKnown st345.sides = 3 := by
    unfold st345 TS.init countKnown
    norm_num
  rw [hc]
  simp only [if_pos rfl, threeAngles_st345, ok_bind, validate_st345angles,
    other_st345angles, if_true]

/-- C2 (failing input, code_bug): on sides `[1, 10]` with the angle opposite
side `1` equal to `π/2`, the three measurements cannot form a triangle and
the law-of-sines ratio passed to `asin` is `10`, outside `[-1, 1]`; the
code has no exception handler, so the `math.asin` domain error
(`ValueError`) escapes to the caller instead of being converted to
`TriangleException(INVALID_TRIANGLE)` as the spec requires. -/
theorem C2_failing :
    solveTS stC2 = .error .mathDomain ∧
    PyErr.mathDomain ≠ PyErr.tri .invalidTriangle := by
  constructor
  · unfold stC2 TS.init solveTS validate check3 validateStep calculate_two_angles
      loop3 twoAnglesInner
    norm_num [validate_side, validate_angle, countKnown, divE_ok, asinE_err,
      Real.sin_pi_div_two, Real.pi_pos, abs]
  · intro h
    exact PyErr.noConfusion h

/-- C10 (confirmed): at the public boundary, the comprehension
`math.radians(x) if x else None` coerces an input angle equal to `0`
(degrees) to the unknown marker before validation, so
`solve([3,4], [0])` fails with `NotEnoughVariables` (two knowns) rather
than `InvalidAngle`, and `solve(sides, [0, 30, 40])` normalizes the angle
list so that only two angles are known. -/
theorem C10_confirmed :
    solvePy [some 3, some 4] [some 0] = .error (.tri .notEnoughVariables) ∧
    ensure_size (([some 0, some 30, some 40] : List (Option ℝ)).map coerceAngle) =
      ⟨none, some (30*π/180), some (40*π/180)⟩ ∧
    countKnown ⟨none, some (30*π/180), some (40*π/180)⟩ = 2 := by
  refine ⟨?_, ?_, by norm_num [countKnown]⟩
  · unfold solvePy coerceAngle ensure_size TS.init solveTS validate check3
      validateStep
    norm_num [validate_side, countKnown]
  · unfold coerceAngle ensure_size
    norm_num

/-- C3 (counterexample): a known angle of `-1` radians — outside `(0, π)` —
passes validation: `validate_angle` only checks the upper bound
`angles[i] < math.pi`, so validation of sides `[3, 4]` with third angle
`-1` succeeds instead of failing with `InvalidAngle`. -/
theorem C3_counterexample :
    validate false (TS.init ⟨some 3, some 4, none⟩ ⟨none, none, some (-1)⟩) =
      .ok () ∧ (-1 : ℝ) ≤ 0 := by
  refine ⟨?_, by norm_num⟩
  unfold TS.init validate check3 validateStep
  have h : validate_angle (-1 : ℝ) := by
    unfold validate_angle
    linarith [Real.pi_pos]
  norm_num [validate_side, countKnown, h]

/-- C3 (amended): for a two-sides-one-angle input, validation rejects the
known angle with `InvalidAngle` exactly when it is `≥ π`; any angle
`< π` — including every angle `≤ 0` — passes the angle check, because
`validate_angle` tests only `angles[i] < math.pi` with no lower bound. -/
theorem C3_amended (s0 s1 θ : ℝ) :
    (θ < π →
      validate false (TS.init ⟨some s0, some s1, none⟩ ⟨none, none, some θ⟩) =
        .ok ()) ∧
    (π ≤ θ →
      validate false (TS.init ⟨some s0, some s1, none⟩ ⟨none, none, some θ⟩) =
        .error (.tri .invalidAngle)) := by
  constructor
  · intro hθ
    unfold TS.init validate check3 validateStep
    norm_num [validate_side, validate_angle, countKnown, hθ]
  · intro hθ
    unfold TS.init validate check3 validateStep
    norm_num [validate_side, validate_angle, countKnown, not_lt.mpr hθ]

/-- C3 (witness): the amended statement applied at sides `[3, 4]` with third
angle `-1` (accepted) and with third angle `4 > π` (rejected with
`InvalidAngle`). -/
theorem C3_witness :
    validate false (TS.init ⟨some 3, some 4, none⟩ ⟨none, none, some (-1)⟩) =
      .ok () ∧
    validate false (TS.init ⟨some 3, some 4, none⟩ ⟨none, none, some 4⟩) =
      .error (.tri .invalidAngle) :=
  ⟨(C3_amended 3 4 (-1)).1 (by linarith [Real.pi_pos]),
   (C3_amended 3 4 4).2 Real.pi_lt_four.le⟩

/-- C6 (counterexample): the count checks run only after the per-index side
and angle checks, so an input with 4 knowns can fail with a different
error: sides `[10, 1, 1]` with one angle `0.5` has `10 ≥ 1 + 1`, and the
solve fails with `InvalidSide`, not `TooManyVariables`. -/
theorem C6_counterexample :
    solveTS (TS.init ⟨some 10, some 1, some 1⟩ ⟨some (1/2), none, none⟩) =
      .error (.tri .invalidSide) ∧
    countKnown ⟨some (10:ℝ), some 1, some 1⟩ +
      countKnown ⟨some ((1:ℝ)/2), none, none⟩ = 4 ∧
    TriErr.invalidSide ≠ TriErr.tooManyVariables := by
  refine ⟨?_, by norm_num [countKnown], by decide⟩
  unfold TS.init solveTS validate check3 validateStep
  norm_num [validate_side, abs]

/-- C6 (amended): when every per-index side and angle check passes, the
variable counts decide the outcome of the pre-solve validation exactly as
claimed: more than 3 knowns fail with `TooManyVariables`, fewer than 3
with `NotEnoughVariables`, 3 knowns with no sides with `NoSides`, and
otherwise validation succeeds; the claim's two concrete instances hold:
`solve([3,4], [])` fails with `NotEnoughVariables` and
`solve([3,4,5], [1.0])` fails with `TooManyVariables`. -/
theorem C6_amended :
    (∀ st : TS, (∀ i : Fin 3, validateStep false st i = .ok ()) →
      validate false st =
        (if countKnown st.sides + countKnown st.angles > 3 then
          .error (.tri .tooManyVariables)
         else if countKnown st.sides + countKnown st.angles < 3 then
          .error (.tri .notEnoughVariables)
         else if countKnown st.sides = 0 then .error (.tri .noSides)
         else .ok ())) ∧
    solvePy [some 3, some 4] [] = .error (.tri .notEnoughVariables) ∧
    solvePy [some 3, some 4, some 5] [some 1] = .error (.tri .tooManyVariables) := by
  refine ⟨fun st h => ?_, ?_, ?_⟩
  · unfold validate check3
    simp only [h 0, h 1, h 2, ok_bind]
    rfl
  · unfold solvePy coerceAngle ensure_size TS.init solveTS validate check3
      validateStep
    norm_num [validate_side, countKnown]
  · have hang : π / 180 < π := by nlinarith [Real.pi_pos]
    unfold solvePy coerceAngle ensure_size TS.init solveTS validate check3
      validateStep
    norm_num [validate_side, validate_angle, countKnown, hang, abs]

/-- C6 (witness): the amended count rule applied to the concrete 3-known
input `sides=[3,4,5]`, `angles=[]`, whose per-index checks all pass and
whose counts equal 3, so validation succeeds. -/
theorem C6_witness : validate false st345 = .ok () := by
  have h0 : validateStep false st345 0 = .ok () := by
    unfold st345 TS.init validateStep
    norm_num [validate_side, abs]
  have h1 : validateStep false st345 1 = .ok () := by
    unfold st345 TS.init validateStep
    norm_num [validate_side, abs]
  have h2 : validateStep false st345 2 = .ok () := by
    unfold st345 TS.init validateStep
    norm_num [validate_side, abs]
  have h : ∀ i : Fin 3, validateStep false st345 i = .ok () := by
    intro i
    fin_cases i
    exacts [h0, h1, h2]
  rw [C6_amended.1 st345 h]
  norm_num [st345, TS.init, countKnown]

/-- C4 (counterexample): solving sides `[sin 2.4, cos 1.2]` with given angle
`2.4` at index 0 — a genuine isoceles triangle — raises `InvalidTriangle`,
even though at index 0 (the only index where the original input supplied
both a side and its opposite angle) the angle recomputed from the three
final sides via the law of cosines equals the given angle `2.4` exactly
(so it differs by `0 ≤ 0.01`): the solver itself overwrote the stored
angle with the acute supplement `π - 2.4` before the check ran.  (Using
`2.4 = 12/5` and `1.2 = 6/5`; the final sides are
`(sin(12/5), cos(6/5), cos(6/5))`.) -/
theorem C4_counterexample :
    solveTS stC4 = .error (.tri .invalidTriangle) ∧
    Real.arccos ((cos (6/5)^2 + cos (6/5)^2 - sin (12/5)^2) /
      (2 * cos (6/5) * cos (6/5))) = 12/5 ∧
    isclose (12/5) (12/5) := by
  refine ⟨solveTS_C4, ?_, isclose_refl _⟩
  rw [cos65_eq]
  rw [cos_arg_eq sum_C4 sin_bC4_pos.ne' sin_bC4_pos.ne']
  exact Real.arccos_cos (by norm_num) twelve_fifth_lt_pi.le

/-- C4 (amended): on a fully-known state whose per-index side and angle
checks pass and whose law-of-cosines arguments are well defined and in
the `acos` domain, the post-solve consistency check succeeds iff at every
index the angle recomputed from the stored sides is `isclose` (absolute
tolerance 0.01) to the stored angle, and raises `InvalidTriangle` iff
some index mismatches.  The stored angles are the solver's current
values, which — as the counterexample shows — may have been overwritten
and need not be the originally supplied ones. -/
theorem C4_amended (s0 s1 s2 θ0 θ1 θ2 : ℝ)
    (hv0 : validate_side s0 (some s1, some s2))
    (hv1 : validate_side s1 (some s0, some s2))
    (hv2 : validate_side s2 (some s0, some s1))
    (ha0 : θ0 < π) (ha1 : θ1 < π) (ha2 : θ2 < π)
    (hd0 : 2*s1*s2 ≠ 0) (hd1 : 2*s0*s2 ≠ 0) (hd2 : 2*s0*s1 ≠ 0)
    (hq0l : -1 ≤ (s1^2 + s2^2 - s0^2)/(2*s1*s2))
    (hq0r : (s1^2 + s2^2 - s0^2)/(2*s1*s2) ≤ 1)
    (hq1l : -1 ≤ (s0^2 + s2^2 - s1^2)/(2*s0*s2))
    (hq1r : (s0^2 + s2^2 - s1^2)/(2*s0*s2) ≤ 1)
    (hq2l : -1 ≤ (s0^2 + s1^2 - s2^2)/(2*s0*s1))
    (hq2r : (s0^2 + s1^2 - s2^2)/(2*s0*s1) ≤ 1) :
    (validate true (mkFull s0 s1 s2 θ0 θ1 θ2) = .ok () ↔
      (isclose (Real.arccos ((s1^2 + s2^2 - s0^2)/(2*s1*s2))) θ0 ∧
       isclose (Real.arccos ((s0^2 + s2^2 - s1^2)/(2*s0*s2))) θ1 ∧
       isclose (Real.arccos ((s0^2 + s1^2 - s2^2)/(2*s0*s1))) θ2)) ∧
    (validate true (mkFull s0 s1 s2 θ0 θ1 θ2) =
        .error (.tri .invalidTriangle) ↔
      ¬(isclose (Real.arccos ((s1^2 + s2^2 - s0^2)/(2*s1*s2))) θ0 ∧
        isclose (Real.arccos ((s0^2 + s2^2 - s1^2)/(2*s0*s2))) θ1 ∧
        isclose (Real.arccos ((s0^2 + s1^2 - s2^2)/(2*s0*s1))) θ2)) := by
  unfold mkFull TS.init validate check3 validateStep
  simp only [TS.sides_mk, TS.angles_mk, Triple.get_zero, Triple.get_one,
    Triple.get_two, Triple.rest_zero, Triple.rest_one, Triple.rest_two,
    getF_some, ok_bind]
  rw [if_pos hv0, if_pos (show validate_angle θ0 from ha0)]
  simp only [ok_bind, if_true, pure_eq_ok]
  rw [divE_ok hd0]
  simp only [ok_bind]
  rw [acosE_ok hq0l hq0r]
  simp only [ok_bind]
  rw [if_pos hv1, if_pos (show validate_angle θ1 from ha1)]
  simp only [ok_bind, if_true, pure_eq_ok]
  rw [divE_ok hd1]
  simp only [ok_bind]
  rw [acosE_ok hq1l hq1r]
  simp only [ok_bind]
  rw [if_pos hv2, if_pos (show validate_angle θ2 from ha2)]
  simp only [ok_bind, if_true, pure_eq_ok]
  rw [divE_ok hd2]
  simp only [ok_bind]
  rw [acosE_ok hq2l hq2r]
  simp only [ok_bind]
  by_cases c0 : isclose (Real.arccos ((s1^2 + s2^2 - s0^2)/(2*s1*s2))) θ0 <;>
    by_cases c1 : isclose (Real.arccos ((s0^2 + s2^2 - s1^2)/(2*s0*s2))) θ1 <;>
      by_cases c2 : isclose (Real.arccos ((s0^2 + s1^2 - s2^2)/(2*s0*s1))) θ2 <;>
        simp [c0, c1, c2]

/-- C4 (witness): the amended characterization applied to the consistent
fully-known 3-4-5 triple, whose recomputed angles all match exactly, so
complete validation succeeds. -/
theorem C4_witness :
    validate true (mkFull 3 4 5 (arccos (4/5)) (arccos (3/5)) (π/2)) =
      .ok () := by
  have h := (C4_amended 3 4 5 (arccos (4/5)) (arccos (3/5)) (π/2)
    (by unfold validate_side; norm_num [abs])
    (by unfold validate_side; norm_num [abs])
    (by unfold validate_side; norm_num [abs])
    (arccos_lt_pi' (by norm_num)) (arccos_lt_pi' (by norm_num))
    (by linarith [Real.pi_pos])
    (by norm_num) (by norm_num) (by norm_num)
    (by norm_num) (by norm_num) (by norm_num) (by norm_num)
    (by norm_num) (by norm_num)).1
  apply h.mpr
  refine ⟨?_, ?_, ?_⟩
  · rw [show ((4:ℝ)^2 + 5^2 - 3^2)/(2*4*5) = 4/5 by norm_num]
    exact isclose_refl _
  · rw [show ((3:ℝ)^2 + 5^2 - 4^2)/(2*3*5) = 3/5 by norm_num]
    exact isclose_refl _
  · rw [show ((3:ℝ)^2 + 4^2 - 5^2)/(2*3*4) = 0 by norm_num, Real.arccos_zero]
    exact isclose_refl _

/-- C9 (counterexample): in the `__init__.py` stage, creating the alternate
with `dataclasses.replace` shares the angle-list storage, so the write
`copy.angles[j] = π - self.angles[j]` also changes the primary's
angles: starting from angles `[1, 1/2, 1/3]` and `j = 0`, the primary's
angle list afterwards is `[π - 1, 1/2, 1/3] ≠ [1, 1/2, 1/3]` — a write
to the alternate's storage mutated the primary, contradicting the claim
that the copy is a full value copy. -/
theorem C9_counterexample :
    initReplaceAttach ⟨some 1, some (1/2), some (1/3)⟩ 0 =
      .ok (⟨some (π - 1), some (1/2), some (1/3)⟩,
           ⟨some (π - 1), some (1/2), some (1/3)⟩) ∧
    (⟨some (π - 1), some (1/2), some (1/3)⟩ : Triple (Option ℝ)) ≠
      ⟨some 1, some (1/2), some (1/3)⟩ := by
  constructor
  · unfold initReplaceAttach
    simp
  · intro h
    have h0 := congrArg Triple.x0 h
    simp only [Option.some.injEq] at h0
    linarith [Real.pi_gt_three]

/-- C9 (amended): in the final stage `triangle.py` the claim is true — the
copy's lists are fresh (`copy.angles = list(self.angles)`), so the whole
alternate block (flipping the copy's angle, solving, validating and
deriving quantities on the copy) leaves the primary's sides and angles
untouched and merely attaches the solved copy as the alternative. -/
theorem C9_amended (st st' : TS) (j : Fin 3) (h : attachAlt st j = .ok st') :
    st'.sides = st.sides ∧ st'.angles = st.angles ∧
    ∃ c, st'.alternative = some c := by
  unfold attachAlt at h
  rcases hg : st.angles.get j with _ | θ <;> rw [hg] at h
  · simp at h
  simp only [getF_some, ok_bind] at h
  rcases h2 : calculate_two_sides (TS.mk st.sides (st.angles.set j
      (some (π - θ))) ⟨none, none, none⟩ ⟨none, none, none⟩ true none none
      none) with e | c1 <;> rw [h2] at h
  · simp at h
  simp only [ok_bind] at h
  rcases h3 : validate true c1 with e | u <;> rw [h3] at h
  · simp at h
  simp only [ok_bind] at h
  rcases h4 : calculate_other c1 with e | c2 <;> rw [h4] at h
  · simp at h
  simp only [ok_bind, pure_eq_ok, Except.ok.injEq] at h
  subst h
  rcases st with ⟨s, a, al, me, fl, pe, ar, ob⟩
  exact ⟨rfl, rfl, c2, rfl⟩

/-- C9 (witness): the frame property instantiated on the concrete attach of
the C4 run: attaching the alternate to the state with angles
`(2·bC4, bC4, bC4)` leaves its sides and angles unchanged and sets the
alternative. -/
theorem C9_witness :
    stC4d.sides = stC4c.sides ∧ stC4d.angles = stC4c.angles ∧
    ∃ c, stC4d.alternative = some c :=
  C9_amended stC4c stC4d 0
    (by unfold stC4c stC4d; exact attach_C4 _ _ _ _ _ _)

/-- C7 (confirmed): for every state with known sides `a, b, c` and known
angles on which `calculate_other` succeeds, the stored median at each
index `i` equals the standard median-length formula
`sqrt((2*side[x]^2 + 2*side[y]^2 - side[i]^2) / 4)`: the code's
`sqrt((sides[a]**2 + sides[b]**2 - sides[i]**2 / 2) / 2)` is the same
real number, since `(x^2 + y^2 - z^2/2)/2 = (2x^2 + 2y^2 - z^2)/4`. -/
theorem C7_confirmed (st st' : TS) (a b c θ0 θ1 θ2 : ℝ)
    (h : calculate_other st = .ok st')
    (hs : st.sides = ⟨some a, some b, some c⟩)
    (ha : st.angles = ⟨some θ0, some θ1, some θ2⟩) :
    st'.medians = ⟨some (√((2*b^2 + 2*c^2 - a^2)/4)),
                   some (√((2*a^2 + 2*c^2 - b^2)/4)),
                   some (√((2*a^2 + 2*b^2 - c^2)/4))⟩ := by
  unfold calculate_other sqrtE at h
  rw [hs, ha] at h
  simp only [Triple.get_zero, Triple.get_one, Triple.get_two, Triple.rest_zero,
    Triple.rest_one, Triple.rest_two, getF_some, ok_bind] at h
  split_ifs at h with h0 h1 h2
  · rcases st with ⟨s, an, al, me, fl, pe, ar, ob⟩
    simp only [ok_bind, pure_eq_ok, Except.ok.injEq] at h
    rw [← h]
    simp only [TS.medians_mk, Triple.set_zero, Triple.set_one, Triple.set_two]
    rw [show (a^2 + c^2 - b^2/2)/2 = (2*a^2 + 2*c^2 - b^2)/4 by ring,
      show (b^2 + c^2 - a^2/2)/2 = (2*b^2 + 2*c^2 - a^2)/4 by ring,
      show (a^2 + b^2 - c^2/2)/2 = (2*a^2 + 2*b^2 - c^2)/4 by ring]
  all_goals simp at h

/-- C7 (witness): the median formula instantiated on the solved 3-4-5
triangle: the three medians are the standard formula's values. -/
theorem C7_witness :
    res345.medians = ⟨some (√((2*4^2 + 2*5^2 - 3^2)/4)),
                      some (√((2*3^2 + 2*5^2 - 4^2)/4)),
                      some (√((2*3^2 + 2*4^2 - 5^2)/4))⟩ :=
  C7_confirmed st345angles res345 3 4 5 (arccos (4/5)) (arccos (3/5)) (π/2)
    other_st345angles rfl rfl

/-- C8 (counterexample): feeding the fully-known output of the successful
3-4-5 solve back into the solver does not succeed: with all 6 quantities
known, the pre-solve count check sees `6 > 3` and fails with
`TooManyVariables`. -/
theorem C8_counterexample :
    solveTS st345 = .ok res345 ∧
    solveTS (TS.init res345.sides res345.angles) =
      .error (.tri .tooManyVariables) := by
  refine ⟨solveTS_345, ?_⟩
  unfold res345 TS.init solveTS validate check3 validateStep
  norm_num [validate_side, validate_angle, countKnown, abs, arccos_lt_pi',
    Real.pi_pos]

/-- C8 (amended): re-solving any fully-known triple (all 3 sides and all 3
angles given) whose per-index side and angle checks pass always fails with
`TooManyVariables`: the count check `side_count + angle_count > 3` rejects
all six knowns before any consistency check can run. -/
theorem C8_amended (s0 s1 s2 θ0 θ1 θ2 : ℝ)
    (hv0 : validate_side s0 (some s1, some s2))
    (hv1 : validate_side s1 (some s0, some s2))
    (hv2 : validate_side s2 (some s0, some s1))
    (ha0 : θ0 < π) (ha1 : θ1 < π) (ha2 : θ2 < π) :
    solveTS (TS.init ⟨some s0, some s1, some s2⟩ ⟨some θ0, some θ1, some θ2⟩) =
      .error (.tri .tooManyVariables) := by
  unfold TS.init solveTS validate check3 validateStep
  norm_num [validate_angle, countKnown, hv0, hv1, hv2, ha0, ha1, ha2]

/-- C8 (witness): the amended statement applied to the 3-4-5 output triple. -/
theorem C8_witness :
    solveTS (TS.init ⟨some 3, some 4, some 5⟩
        ⟨some (arccos (4/5)), some (arccos (3/5)), some (π/2)⟩) =
      .error (.tri .tooManyVariables) :=
  C8_amended 3 4 5 (arccos (4/5)) (arccos (3/5)) (π/2)
    (by unfold validate_side; norm_num [abs])
    (by unfold validate_side; norm_num [abs])
    (by unfold validate_side; norm_num [abs])
    (arccos_lt_pi' (by norm_num)) (arccos_lt_pi' (by norm_num))
    (by linarith [Real.pi_pos])

/-- C1 (counterexample): solving sides `[3,4,5]` with no angles succeeds, but
the claim's stated output is wrong on two counts: the angle paired with
side `3` at index 0 is `arccos(4/5) ≈ 0.6435`, which is more than the
`0.01` tolerance away from `π/2`, and the area field is `36`, not `6`
(the code stores the Heron product without applying the square root). -/
theorem C1_counterexample :
    solveTS st345 = .ok res345 ∧
    res345.area = some 36 ∧ (36 : ℝ) ≠ 6 ∧
    res345.angles.get 0 = some (arccos (4/5)) ∧
    1/100 < |arccos (4/5) - π/2| := by
  refine ⟨solveTS_345, rfl, by norm_num, rfl, ?_⟩
  rw [Real.arccos_eq_pi_div_two_sub_arcsin]
  rw [show π/2 - Real.arcsin (4/5) - π/2 = -(Real.arcsin (4/5)) by ring, abs_neg,
    abs_of_nonneg (Real.arcsin_nonneg.mpr (by norm_num))]
  exact arcsin_gt_hundredth (by norm_num) (by norm_num)

/-- C1 (amended): solving sides `[3,4,5]` with no angles succeeds and yields
angles `[arccos 0.8, arccos 0.6, π/2] ≈ [0.6435, 0.9273, π/2]` (index `i`
paired with `side[i]`; equivalently `sin(angle[0]) = 3/5` and
`sin(angle[1]) = 4/5`), perimeter exactly `12`, and area `36`: the stored
area is the Heron product `s(s-a)(s-b)(s-c) = 6²`, the square root being
omitted by the code. -/
theorem C1_amended :
    solveTS st345 = .ok res345 ∧
    res345.angles = ⟨some (arccos (4/5)), some (arccos (3/5)), some (π/2)⟩ ∧
    sin (arccos (4/5)) = 3/5 ∧ sin (arccos (3/5)) = 4/5 ∧
    res345.perimeter = some 12 ∧ res345.area = some 36 ∧ √36 = 6 := by
  refine ⟨solveTS_345, rfl, sin_arccos_rat.1, sin_arccos_rat.2, rfl, rfl, ?_⟩
  rw [show (36:ℝ) = 6^2 by norm_num, Real.sqrt_sq (by norm_num : (0:ℝ) ≤ 6)]

/-- C5 (counterexample): for input sides `[sin(0.7), cos(0.704)]` with
angle `0.7` at index 0, the ambiguity predicate holds at the pair
`i = 0, j = 1` (the computed `angle[1] = aC5` is acute, `side[0] <
side[1]`, and `side[0] > side[1]·sin(angle[0])`) and the candidate is
not an alternate, yet the returned solution's alternate has angle `aC5`
at index 1 — equal to the primary's `angle[1]`, not `π - aC5`: a later
iteration of the loop re-fired the ambiguity test at the pair `(0, 2)`
and overwrote the attached alternate.  (Using `0.7 = 7/10` and
`0.704 = 88/125`; `aC5 = π/2 - 88/125`.) -/
theorem C5_counterexample :
    solveTS stC5 = .ok resC5 ∧
    stC5.sides = ⟨some (sin (7/10)), some (cos (88/125)), none⟩ ∧
    cos (88/125) = sin aC5 ∧
    (aC5 < π/2 ∧ sin (7/10) < sin aC5 ∧
      sin aC5 * sin (7/10) < sin (7/10)) ∧
    resC5.isAlternative = false ∧
    resC5.alternative = some altC5b ∧
    resC5.angles.get 1 = some aC5 ∧
    altC5b.angles.get 1 = some aC5 ∧
    aC5 ≠ π - aC5 := by
  refine ⟨solveTS_C5, rfl, cos88_eq, ⟨aC5_lt_half, sin710_lt_sin_aC5, ?_⟩,
    rfl, rfl, rfl, rfl, aC5_ne_flip⟩
  nlinarith [sin710_pos, sin_aC5_lt_one, sin_aC5_pos]

/-- C5 (amended): when the ambiguity predicate fires at a pair `(i, j)`
the solver does attach an alternate with `angle[j]` flipped to `π -
angle[j]`, but a later loop iteration may fire again at another pair and
overwrite it, so the alternate finally returned need not correspond to
the first ambiguous pair and its angle at that pair's index `j` need not
be `π` minus the primary's.  What does hold unconditionally: the
recursion guard (`is_alternative` short-circuits `is_ambigous` and the
attached candidate is solved with the flag set) ensures that every
successful solve returns a state whose alternate, if any, carries no
alternate of its own. -/
theorem C5_amended (sa aa : Triple (Option ℝ)) (st' : TS)
    (h : solveTS (TS.init sa aa) = .ok st') : altOk st' :=
  solveTS_altOk sa aa st' h

/-- C5 (witness): the no-nested-alternate guarantee applied to the
counterexample's own run: the alternate `altC5b` attached by
`solveTS stC5` has no alternate of its own. -/
theorem C5_witness : altC5b.alternative = none :=
  (C5_amended ⟨some (sin (7/10)), some (cos (88/125)), none⟩
    ⟨some (7/10), none, none⟩ resC5 solveTS_C5) altC5b rfl

end TriSolve
